import Mathlib

/-!
Verification development for the jsr-mcp repository (a Deno workspace with two
packages: an MCP server embedding a JSR API client, and a reusable JSR client
library).  The definitions below are shallow embeddings, translated from the
TypeScript sources:

* src/src/clients/jsr.ts           - the server-embedded JSR client,
* src/src/tools/jsr-tools.ts       - the tool dispatcher handleJSRTool,
* src/src/types/jsr.ts, types/mcp.ts - the Zod input schemas,
* packages/jsr/src/client.ts       - the library JSR client (the duplicate),
* packages/jsr-mcp/src/index.ts    - the library MCP server (inline handlers).

JavaScript numbers are modelled as Int (all schema bounds and pagination
arithmetic in the sources are integer-valued; Math.floor(a / b) is Int.fdiv
for nonzero b, and theorems about division sites carry explicit nonzero /
positivity hypotheses).  JSON text decoding performed by the platform
(response.json()) is abstracted: an HTTP response carries both its body text
and the JSON value the body decodes to, when it is valid JSON.
-/

set_option maxHeartbeats 1000000

namespace JsrMcp

/-- A JSON-compatible value (the `unknown` arguments an MCP client sends, and
the decoded bodies the JSR API returns).  Objects are association lists with
the first binding of a key the visible one. -/
inductive JValue where
  | null
  | bool (b : Bool)
  | num (n : Int)
  | str (s : String)
  | arr (elems : List JValue)
  | obj (fields : List (String × JValue))
deriving Repr

/-- Property lookup on a JSON object's field list (JavaScript object access:
the binding for a key, if any). -/
def lookupField : List (String × JValue) → String → Option JValue
  | [], _ => none
  | (k, v) :: rest, key => if k = key then some v else lookupField rest key

/-! Section: Zod-style validation combinators

The sources validate tool arguments with Zod object schemas.  Each schema is
embedded as a parser `JValue → Except String α`.  Error messages are
abbreviated one-issue strings (Zod aggregates issue lists; the exact message
text is a model detail, the success/failure split is the embedded behavior).
Zod object schemas read only their declared keys and strip the rest. -/

/-- z.string() -/
def zString : JValue → Except String String
  | .str s => .ok s
  | _ => .error "Expected string"

/-- z.string().max(n) -/
def zStringMax (n : Nat) : JValue → Except String String
  | .str s => if s.length ≤ n then .ok s else .error "String must contain at most 250 character(s)"
  | _ => .error "Expected string"

/-- z.string().regex(pattern, msg): the pattern check is `check`. -/
def zStringPat (check : String → Bool) (msg : String) : JValue → Except String String
  | .str s => if check s then .ok s else .error msg
  | _ => .error "Expected string"

/-- z.number() (integer-valued model of a JS number) -/
def zNumber : JValue → Except String Int
  | .num n => .ok n
  | _ => .error "Expected number"

/-- z.number().min(lo) -/
def zNumberMin (lo : Int) : JValue → Except String Int
  | .num n =>
      if n < lo then .error "Number must be greater than or equal to the minimum" else .ok n
  | _ => .error "Expected number"

/-- z.number().min(lo).max(hi) -/
def zNumberMinMax (lo hi : Int) : JValue → Except String Int
  | .num n =>
      if n < lo then .error "Number must be greater than or equal to the minimum"
      else if hi < n then .error "Number must be less than or equal to the maximum"
      else .ok n
  | _ => .error "Expected number"

/-- z.boolean() -/
def zBool : JValue → Except String Bool
  | .bool b => .ok b
  | _ => .error "Expected boolean"

/-- A required object field: missing key is a validation failure. -/
def reqField (fs : List (String × JValue)) (key : String)
    (p : JValue → Except String α) : Except String α :=
  match lookupField fs key with
  | some v => p v
  | none => .error (key ++ ": Required")

/-- An optional object field (`.optional()`): a missing key parses to none. -/
def optField (fs : List (String × JValue)) (key : String)
    (p : JValue → Except String α) : Except String (Option α) :=
  match lookupField fs key with
  | some v => (p v).map some
  | none => .ok none

/-- A `.nullable().optional()` object field: missing parses to none,
null parses to some none, otherwise some (some value). -/
def nullableOptField (fs : List (String × JValue)) (key : String)
    (p : JValue → Except String α) : Except String (Option (Option α)) :=
  match lookupField fs key with
  | some .null => .ok (some none)
  | some v => (p v).map (fun a => some (some a))
  | none => .ok none

/-! Section: Name pattern checks (src/src/types/jsr.ts ScopeNameSchema, PackageNameSchema) -/

def isLowerAlpha (c : Char) : Bool :=
  ('a' ≤ c && c ≤ 'z')

def isLowerAlnum (c : Char) : Bool :=
  isLowerAlpha c || ('0' ≤ c && c ≤ '9')

/-- State after having read one valid in-segment character of the
scope/package name pattern: the rest must be lowercase alphanumerics with
single hyphens each followed by at least one alphanumeric. -/
def scopeNameRest : List Char → Bool
  | [] => true
  | c :: rest =>
      if c = '-' then
        match rest with
        | [] => false
        | d :: rest2 => isLowerAlnum d && scopeNameRest rest2
      else
        isLowerAlnum c && scopeNameRest rest

/-- The scope-name regex of ScopeNameSchema:
a lowercase letter, then lowercase alphanumerics, then hyphen-joined
nonempty lowercase alphanumeric segments. -/
def scopeNameOk (s : String) : Bool :=
  match s.data with
  | [] => false
  | c :: rest => isLowerAlpha c && scopeNameRest rest

/-- PackageNameSchema uses the identical regex. -/
def packageNameOk : String → Bool := scopeNameOk

def isHexDigit (c : Char) : Bool :=
  ('0' ≤ c && c ≤ '9') || ('a' ≤ c && c ≤ 'f') || ('A' ≤ c && c ≤ 'F')

/-- Modelled check for z.string().uuid(): five hyphen-separated hex groups of
lengths 8-4-4-4-12 (Zod's uuid format, version digits abstracted). -/
def uuidOk (s : String) : Bool :=
  match s.splitOn "-" with
  | [a, b, c, d, e] =>
      a.length = 8 && b.length = 4 && c.length = 4 && d.length = 4 && e.length = 12 &&
      a.data.all isHexDigit && b.data.all isHexDigit && c.data.all isHexDigit &&
      d.data.all isHexDigit && e.data.all isHexDigit
  | _ => false

/-! Section: JSON serialization (JSON.stringify; the 2-space pretty printing of
JSON.stringify(value, null, 2) is abstracted to a compact rendering). -/

def jsonEscapeChar (c : Char) : String :=
  if c = '"' then "\\\"" else if c = '\\' then "\\\\" else String.mk [c]

def jsonEscape (s : String) : String :=
  String.join (s.data.map jsonEscapeChar)

mutual

def jsonStringify : JValue → String
  | .null => "null"
  | .bool b => if b then "true" else "false"
  | .num n => toString n
  | .str s => "\"" ++ jsonEscape s ++ "\""
  | .arr elems => "[" ++ jsonStringifyList elems ++ "]"
  | .obj fields => "\x7b" ++ jsonStringifyFields fields ++ "\x7d"

def jsonStringifyList : List JValue → String
  | [] => ""
  | [v] => jsonStringify v
  | v :: rest => jsonStringify v ++ "," ++ jsonStringifyList rest

def jsonStringifyFields : List (String × JValue) → String
  | [] => ""
  | [(k, v)] => "\"" ++ jsonEscape k ++ "\":" ++ jsonStringify v
  | (k, v) :: rest =>
      "\"" ++ jsonEscape k ++ "\":" ++ jsonStringify v ++ "," ++ jsonStringifyFields rest

end

/-! Section: Connection configuration (createJSRConfig: identical in
src/src/clients/jsr.ts and packages/jsr/src/client.ts) -/

structure JSRConfig where
  apiUrl : String
  registryUrl : String
  apiToken : Option String
deriving Repr, DecidableEq

/-- url.replace(/\/$/, ""): removes one trailing slash when present. -/
def stripTrailingSlash (s : String) : String :=
  match s.data.reverse with
  | c :: rest => if c = '/' then String.mk rest.reverse else s
  | [] => s

/-- Whether a string ends with a slash. -/
def endsWithSlash (s : String) : Bool :=
  match s.data.reverse with
  | c :: _ => c == '/'
  | [] => false

/-- Whether a string ends with two consecutive slashes. -/
def endsWithDoubleSlash (s : String) : Bool :=
  match s.data.reverse with
  | c1 :: c2 :: _ => c1 == '/' && c2 == '/'
  | _ => false

/-- createJSRConfig: normalizes both URLs by removing a trailing slash and
stores the token verbatim. -/
def createJSRConfig (apiUrl registryUrl : String) (apiToken : Option String) : JSRConfig :=
  { apiUrl := stripTrailingSlash apiUrl
    registryUrl := stripTrailingSlash registryUrl
    apiToken := apiToken }

/-! Section: HTTP model

fetch and the filesystem are external; an environment supplies their
outcomes.  A request builder constructs the outgoing request (URL, method,
headers, body) and post-processes the environment's outcome exactly as the
source does.  Each builder run also reports the list of requests it issued,
so that "no outbound HTTP call is made" is an observable statement. -/

/-- RequestInit: the options object passed to the request builders. -/
structure RequestOptions where
  method : String := "GET"
  headers : List (String × String) := []
  body : Option String := none
deriving Repr, DecidableEq

structure HttpRequest where
  url : String
  method : String
  headers : List (String × String)
  body : Option String
deriving Repr, DecidableEq

/-- An HTTP response.  bodyText is what response.text() yields; bodyJson is
the decoded value response.json() yields when the body is valid JSON (none
when decoding would fail, e.g. the empty body of a 204). -/
structure HttpResponse where
  status : Int
  statusText : String
  bodyText : String
  bodyJson : Option JValue
deriving Repr

/-- The outcome of a fetch call: a response, or a network-level rejection. -/
inductive FetchOutcome where
  | response (resp : HttpResponse)
  | networkError (msg : String)
deriving Repr

/-- The external world: fetch outcomes per request, and Deno.readFile
outcomes per path (file contents modelled as an opaque string of bytes). -/
structure FetchEnv where
  fetch : HttpRequest → FetchOutcome
  readFile : String → Except String String

/-- response.ok: status in the inclusive range 200-299. -/
def respOk (resp : HttpResponse) : Bool :=
  200 ≤ resp.status && resp.status ≤ 299

/-- JavaScript truthiness of an optional string (empty string is falsy). -/
def jsTruthyStr : Option String → Bool
  | some s => !s.isEmpty
  | none => false

/-- JavaScript `a || d` for an optional number (0 is falsy). -/
def jsOrNum (a : Option Int) (d : Int) : Int :=
  match a with
  | some x => if x = 0 then d else x
  | none => d

/-- Object-literal key update: later assignments override earlier bindings
of the same key. -/
def setHeader (hs : List (String × String)) (kv : String × String) : List (String × String) :=
  hs.filter (fun p => !(p.1 == kv.1)) ++ [kv]

/-- Header lookup by key. -/
def lookupHeader (hs : List (String × String)) (key : String) : Option String :=
  (hs.find? (fun p => p.1 == key)).map (fun p => p.2)

/-- The User-Agent of the server-embedded client (jsr-mcp/version; repo URL;
actual version string read from deno.json at build time, fixed here). -/
def userAgentMcp : String := "jsr-mcp/0.2.4; https://github.com/wyattjoh/jsr-mcp"

/-- The User-Agent of the library client. -/
def userAgentLib : String := "jsr-client/0.2.4; https://github.com/wyattjoh/jsr-mcp"

/-- Header construction of makeApiRequest: Content-Type and User-Agent
defaults, overridden by options.headers, then Authorization Bearer only when
the configured token is truthy (if (config.apiToken) ...). -/
def apiHeaders (ua : String) (cfg : JSRConfig) (opts : RequestOptions) : List (String × String) :=
  let base := [("Content-Type", "application/json"), ("User-Agent", ua)]
  let merged := opts.headers.foldl setHeader base
  if jsTruthyStr cfg.apiToken then
    setHeader merged ("Authorization", "Bearer " ++ cfg.apiToken.getD "")
  else merged

/-- Header construction of makeRegistryRequest: Accept and User-Agent,
overridden by options.headers; never any Authorization. -/
def registryHeaders (ua : String) (opts : RequestOptions) : List (String × String) :=
  let base := [("Accept", "application/json"), ("User-Agent", ua)]
  opts.headers.foldl setHeader base

/-- The message response.json() rejects with on an undecodable body
(platform text, fixed in the model). -/
def jsonDecodeErrorMsg : String := "Unexpected end of JSON input"

namespace ServerPkg

/-- Response post-processing of the server-embedded makeApiRequest
(src/src/clients/jsr.ts lines 57-78): non-ok responses raise a message
embedding status, status text and body text; every ok response is decoded
with response.json() - there is no 204 special case in this copy. -/
def apiRespToResult (resp : HttpResponse) : Except String JValue :=
  if respOk resp then
    match resp.bodyJson with
    | some v => .ok v
    | none => .error jsonDecodeErrorMsg
  else
    .error ("JSR API request failed: " ++ toString resp.status ++ " " ++
      resp.statusText ++ ": " ++ resp.bodyText)

/-- The try/catch of the embedded makeApiRequest: every rejection inside the
try block (network failure, the thrown non-ok error, a decode failure) is
re-wrapped with the "JSR API request failed: " header. -/
def apiOutcomeToResult (outcome : FetchOutcome) : Except String JValue :=
  (match outcome with
   | .networkError m => .error m
   | .response resp => apiRespToResult resp : Except String JValue).mapError
    (fun m => "JSR API request failed: " ++ m)

/-- The server-embedded makeApiRequest: builds the request against
config.apiUrl, issues it, and post-processes the outcome. -/
def makeApiRequest (cfg : JSRConfig) (endpoint : String) (opts : RequestOptions)
    (env : FetchEnv) : Except String JValue × List HttpRequest :=
  let req : HttpRequest :=
    { url := cfg.apiUrl ++ endpoint
      method := opts.method
      headers := apiHeaders userAgentMcp cfg opts
      body := opts.body }
  (apiOutcomeToResult (env.fetch req), [req])

/-- Response post-processing of the embedded makeRegistryRequest: non-ok
responses raise a message with status and status text only (no body text);
ok responses are always JSON-decoded (again no 204 case in this copy). -/
def registryRespToResult (resp : HttpResponse) : Except String JValue :=
  if respOk resp then
    match resp.bodyJson with
    | some v => .ok v
    | none => .error jsonDecodeErrorMsg
  else
    .error ("JSR Registry request failed: " ++ toString resp.status ++ " " ++ resp.statusText)

def registryOutcomeToResult (outcome : FetchOutcome) : Except String JValue :=
  (match outcome with
   | .networkError m => .error m
   | .response resp => registryRespToResult resp : Except String JValue).mapError
    (fun m => "JSR Registry request failed: " ++ m)

def makeRegistryRequest (cfg : JSRConfig) (endpoint : String) (opts : RequestOptions)
    (env : FetchEnv) : Except String JValue × List HttpRequest :=
  let req : HttpRequest :=
    { url := cfg.registryUrl ++ endpoint
      method := opts.method
      headers := registryHeaders userAgentMcp opts
      body := opts.body }
  (registryOutcomeToResult (env.fetch req), [req])

end ServerPkg

namespace LibPkg

/-- Response post-processing of the library makeApiRequest
(packages/jsr/src/client.ts lines 87-106): identical to the embedded copy
except that a 204 status yields undefined (modelled none) with no decode
attempt. -/
def apiRespToResult (resp : HttpResponse) : Except String (Option JValue) :=
  if respOk resp then
    if resp.status = 204 then .ok none
    else
      match resp.bodyJson with
      | some v => .ok (some v)
      | none => .error jsonDecodeErrorMsg
  else
    .error ("JSR API request failed: " ++ toString resp.status ++ " " ++
      resp.statusText ++ ": " ++ resp.bodyText)

/-- The library builder's try/catch wrap, same prefix as the embedded copy. -/
def apiOutcomeToResult (outcome : FetchOutcome) : Except String (Option JValue) :=
  (match outcome with
   | .networkError m => .error m
   | .response resp => apiRespToResult resp : Except String (Option JValue)).mapError
    (fun m => "JSR API request failed: " ++ m)

end LibPkg

/-! Section: Pagination: skip/page conversion sites and the uniform
paginated-response repackaging -/

/-- The skip-to-page conversion inside listScopePackages (identical in both
client copies): page = Math.floor(skip / (limit || 20)) + 1 when skip is
supplied, else 1.  Math.floor of a real quotient is Int.fdiv for a nonzero
divisor (limit || 20 is 20 whenever limit is absent or 0). -/
def listScopePackagesPage (skip limit : Option Int) : Int :=
  match skip with
  | some s => Int.fdiv s (jsOrNum limit 20) + 1
  | none => 1

/-- The skip-to-page conversion in the dispatcher's jsr_search_packages case
(src/src/tools/jsr-tools.ts lines 914-916): the formula
Math.floor(skip / limit) + 1 is applied only when skip and limit are BOTH
supplied; otherwise page is undefined (there is no default limit here). -/
def dispatchSearchPage (skip limit : Option Int) : Option Int :=
  match skip, limit with
  | some s, some l => some (Int.fdiv s l + 1)
  | _, _ => none

/-- The skip-to-page conversion in the library MCP server's
jsr_search_packages handler (packages/jsr-mcp/src/index.ts lines 268-270):
args.skip ? Math.floor(args.skip / (args.limit || 20)) + 1 : undefined,
so a zero (or absent) skip yields no page at all. -/
def libSearchPage (skip limit : Option Int) : Option Int :=
  match skip with
  | some s => if s = 0 then none else some (Int.fdiv s (jsOrNum limit 20) + 1)
  | none => none

/-- The skip echoed by listPackageVersions and getPackageDependents:
page ? (page - 1) * (limit || 20) : 0. -/
def pageToSkip (limit page : Option Int) : Int :=
  match page with
  | some p => if p = 0 then 0 else (p - 1) * jsOrNum limit 20
  | none => 0

/-- The uniform paginated-response shape (PaginatedResponse): data array,
total (absent when the field the source copies is undefined), returned
count, skip, and the limit argument (absent when the caller omitted it). -/
structure Paginated where
  data : List JValue
  total : Option JValue
  returned : Int
  skip : Int
  limit : Option Int
deriving Repr

/-- The repackaging in listPackageVersions: the response is a bare array, so
total is approximated by the returned count. -/
def packageVersionsRepack (resp : List JValue) (limit page : Option Int) : Paginated :=
  { data := resp
    total := some (.num (resp.length : Int))
    returned := (resp.length : Int)
    skip := pageToSkip limit page
    limit := limit }

/-- The repackaging in listScopePackages: items and total come from the
decoded response; skip is echoed as skip || 0. -/
def scopePackagesRepack (items : List JValue) (total : Option JValue)
    (limit skip : Option Int) : Paginated :=
  { data := items
    total := total
    returned := (items.length : Int)
    skip := jsOrNum skip 0
    limit := limit }

/-- The repackaging in getPackageDependents: items and total from the
response, skip recomputed from the page argument. -/
def dependentsRepack (items : List JValue) (total : Option JValue)
    (limit page : Option Int) : Paginated :=
  { data := items
    total := total
    returned := (items.length : Int)
    skip := pageToSkip limit page
    limit := limit }

/-- The JS object a paginated response serializes as (undefined-valued
fields are omitted by JSON.stringify). -/
def Paginated.toJValue (p : Paginated) : JValue :=
  .obj ([("data", .arr p.data)] ++
    (match p.total with | some t => [("total", t)] | none => []) ++
    [("returned", .num p.returned), ("skip", .num p.skip)] ++
    (match p.limit with | some l => [("limit", .num l)] | none => []))

/-- Decoding step for responses declared as item lists with a total
(listScopePackages, getPackageDependents): response.items must be an array
(accessing .length on a missing items field throws); total is copied
verbatim, whatever it is, and is absent when the field is missing. -/
def decodeItemsTotal : JValue → Except String (List JValue × Option JValue)
  | .obj fs =>
      match lookupField fs "items" with
      | some (.arr xs) => .ok (xs, lookupField fs "total")
      | _ => .error "Cannot read properties of undefined (reading 'length')"
  | _ => .error "Cannot read properties of undefined (reading 'length')"

/-- Decoding step for responses declared as bare arrays
(listPackageVersions): the declared shape of the remote response. -/
def decodeArray : JValue → Except String (List JValue)
  | .arr xs => .ok xs
  | _ => .error "response is not an array"

/-- URLSearchParams toString (percent-encoding abstracted; no claim inspects
encoded characters). -/
def paramsToString (params : List (String × String)) : String :=
  String.intercalate "&" (params.map (fun p => p.1 ++ "=" ++ p.2))

namespace ServerPkg

/-! Section: Tool input schemas of src/src/types/jsr.ts, as parsers.

Zod object schemas read only their declared keys and silently strip unknown
keys; a parser here reads the same keys through lookupField and its result
structure carries exactly the declared fields. -/

/-- The scope-name field of the schemas: ScopeNameSchema. -/
def zScopeName : JValue → Except String String :=
  zStringPat scopeNameOk "Invalid scope name format"

/-- The package-name field: PackageNameSchema. -/
def zPackageName : JValue → Except String String :=
  zStringPat packageNameOk "Invalid package name format"

/-- UserIdSchema / z.string().uuid() fields. -/
def zUserId : JValue → Except String String :=
  zStringPat uuidOk "Invalid uuid"

structure SearchPackagesArgs where
  query : Option String
  limit : Option Int
  skip : Option Int

/-- SearchPackagesSchema = PaginationSchema (limit?, skip?, unbounded
numbers) extended with an optional query string. -/
def parseSearchPackages : JValue → Except String SearchPackagesArgs
  | .obj fs => do
      let limit ← optField fs "limit" zNumber
      let skip ← optField fs "skip" zNumber
      let query ← optField fs "query" zString
      .ok { query := query, limit := limit, skip := skip }
  | _ => .error "Expected object"

structure GetPackageArgs where
  scope : String
  name : String

/-- GetPackageSchema: scope and name with their name patterns. -/
def parseGetPackage : JValue → Except String GetPackageArgs
  | .obj fs => do
      let scope ← reqField fs "scope" zScopeName
      let name ← reqField fs "name" zPackageName
      .ok { scope := scope, name := name }
  | _ => .error "Expected object"

structure GetPackageVersionArgs where
  scope : String
  name : String
  version : String

/-- GetPackageVersionSchema = GetPackageSchema + version (any string). -/
def parseGetPackageVersion : JValue → Except String GetPackageVersionArgs
  | .obj fs => do
      let scope ← reqField fs "scope" zScopeName
      let name ← reqField fs "name" zPackageName
      let version ← reqField fs "version" zString
      .ok { scope := scope, name := name, version := version }
  | _ => .error "Expected object"

structure ListPackageVersionsArgs where
  scope : String
  name : String
  limit : Option Int
  page : Option Int

/-- ListPackageVersionsSchema: scope, name, plus unbounded optional limit
and page. -/
def parseListPackageVersions : JValue → Except String ListPackageVersionsArgs
  | .obj fs => do
      let scope ← reqField fs "scope" zScopeName
      let name ← reqField fs "name" zPackageName
      let limit ← optField fs "limit" zNumber
      let page ← optField fs "page" zNumber
      .ok { scope := scope, name := name, limit := limit, page := page }
  | _ => .error "Expected object"

structure GetScopeArgs where
  scope : String

/-- GetScopeSchema (also DeleteScopeSchema, ListScopeMembersSchema,
ListScopeInvitesSchema, GetSelfUserScopeMemberSchema, AcceptScopeInviteSchema
and DeclineScopeInviteSchema, which the source aliases to it). -/
def parseGetScope : JValue → Except String GetScopeArgs
  | .obj fs => do
      let scope ← reqField fs "scope" zScopeName
      .ok { scope := scope }
  | _ => .error "Expected object"

structure ListScopePackagesArgs where
  scope : String
  limit : Option Int
  skip : Option Int

/-- ListScopePackagesSchema = GetScopeSchema merged with PaginationSchema. -/
def parseListScopePackages : JValue → Except String ListScopePackagesArgs
  | .obj fs => do
      let scope ← reqField fs "scope" zScopeName
      let limit ← optField fs "limit" zNumber
      let skip ← optField fs "skip" zNumber
      .ok { scope := scope, limit := limit, skip := skip }
  | _ => .error "Expected object"

structure ListPackagesArgs where
  limit : Option Int
  page : Option Int
  query : Option String

/-- ListPackagesSchema: limit bounded to 1-100, page at least 1, optional
query. -/
def parseListPackages : JValue → Except String ListPackagesArgs
  | .obj fs => do
      let limit ← optField fs "limit" (zNumberMinMax 1 100)
      let page ← optField fs "page" (zNumberMin 1)
      let query ← optField fs "query" zString
      .ok { limit := limit, page := page, query := query }
  | _ => .error "Expected object"

structure GetPackageDependentsArgs where
  scope : String
  name : String
  limit : Option Int
  page : Option Int
  versionsPerPackageLimit : Option Int

/-- GetPackageDependentsSchema: scope, name, limit 1-100, page at least 1,
versionsPerPackageLimit 1-10. -/
def parseGetPackageDependents : JValue → Except String GetPackageDependentsArgs
  | .obj fs => do
      let scope ← reqField fs "scope" zScopeName
      let name ← reqField fs "name" zPackageName
      let limit ← optField fs "limit" (zNumberMinMax 1 100)
      let page ← optField fs "page" (zNumberMin 1)
      let vppl ← optField fs "versionsPerPackageLimit" (zNumberMinMax 1 10)
      .ok { scope := scope, name := name, limit := limit, page := page,
            versionsPerPackageLimit := vppl }
  | _ => .error "Expected object"

structure GetUserArgs where
  id : String

/-- GetUserSchema (and GetUserScopesSchema, aliased in the source): a uuid
id. -/
def parseGetUser : JValue → Except String GetUserArgs
  | .obj fs => do
      let id ← reqField fs "id" zUserId
      .ok { id := id }
  | _ => .error "Expected object"

/-- GetPublishingTaskSchema: its own z.object with a uuid id. -/
def parseGetPublishingTask : JValue → Except String GetUserArgs
  | .obj fs => do
      let id ← reqField fs "id" zUserId
      .ok { id := id }
  | _ => .error "Expected object"

structure CreateScopeArgs where
  scope : String
  description : Option String

/-- CreateScopeSchema: scope plus optional description. -/
def parseCreateScope : JValue → Except String CreateScopeArgs
  | .obj fs => do
      let scope ← reqField fs "scope" zScopeName
      let description ← optField fs "description" zString
      .ok { scope := scope, description := description }
  | _ => .error "Expected object"

structure UpdateScopeArgs where
  scope : String
  ghActionsVerifyActor : Option Bool
  requirePublishingFromCI : Option Bool

/-- UpdateScopeSchema: scope plus two optional booleans. -/
def parseUpdateScope : JValue → Except String UpdateScopeArgs
  | .obj fs => do
      let scope ← reqField fs "scope" zScopeName
      let gh ← optField fs "ghActionsVerifyActor" zBool
      let ci ← optField fs "requirePublishingFromCI" zBool
      .ok { scope := scope, ghActionsVerifyActor := gh, requirePublishingFromCI := ci }
  | _ => .error "Expected object"

structure AddScopeMemberArgs where
  scope : String
  githubLogin : String

/-- AddScopeMemberSchema. -/
def parseAddScopeMember : JValue → Except String AddScopeMemberArgs
  | .obj fs => do
      let scope ← reqField fs "scope" zScopeName
      let githubLogin ← reqField fs "githubLogin" zString
      .ok { scope := scope, githubLogin := githubLogin }
  | _ => .error "Expected object"

structure UpdateScopeMemberArgs where
  scope : String
  userId : String
  isAdmin : Bool

/-- UpdateScopeMemberSchema. -/
def parseUpdateScopeMember : JValue → Except String UpdateScopeMemberArgs
  | .obj fs => do
      let scope ← reqField fs "scope" zScopeName
      let userId ← reqField fs "userId" zUserId
      let isAdmin ← reqField fs "isAdmin" zBool
      .ok { scope := scope, userId := userId, isAdmin := isAdmin }
  | _ => .error "Expected object"

structure RemoveScopeMemberArgs where
  scope : String
  userId : String

/-- RemoveScopeMemberSchema (and DeleteScopeInviteSchema, same shape). -/
def parseRemoveScopeMember : JValue → Except String RemoveScopeMemberArgs
  | .obj fs => do
      let scope ← reqField fs "scope" zScopeName
      let userId ← reqField fs "userId" zUserId
      .ok { scope := scope, userId := userId }
  | _ => .error "Expected object"

/-- DeleteScopeInviteSchema: same extension of GetScopeSchema as
RemoveScopeMemberSchema. -/
def parseDeleteScopeInvite : JValue → Except String RemoveScopeMemberArgs
  | .obj fs => do
      let scope ← reqField fs "scope" zScopeName
      let userId ← reqField fs "userId" zUserId
      .ok { scope := scope, userId := userId }
  | _ => .error "Expected object"

structure CreatePackageArgs where
  scope : String
  package : String

/-- CreatePackageSchema: scope plus package name. -/
def parseCreatePackage : JValue → Except String CreatePackageArgs
  | .obj fs => do
      let scope ← reqField fs "scope" zScopeName
      let package ← reqField fs "package" zPackageName
      .ok { scope := scope, package := package }
  | _ => .error "Expected object"

structure GithubRepoArgs where
  owner : String
  repo : String

/-- The nested githubRepository object of UpdatePackageSchema. -/
def parseGithubRepo : JValue → Except String GithubRepoArgs
  | .obj fs => do
      let owner ← reqField fs "owner" zString
      let repo ← reqField fs "repo" zString
      .ok { owner := owner, repo := repo }
  | _ => .error "Expected object"

structure RuntimeCompatArgs where
  browser : Option (Option Bool)
  deno : Option (Option Bool)
  node : Option (Option Bool)
  workerd : Option (Option Bool)
  bun : Option (Option Bool)

/-- RuntimeCompatSchema: five nullable optional booleans. -/
def parseRuntimeCompat : JValue → Except String RuntimeCompatArgs
  | .obj fs => do
      let browser ← nullableOptField fs "browser" zBool
      let deno ← nullableOptField fs "deno" zBool
      let node ← nullableOptField fs "node" zBool
      let workerd ← nullableOptField fs "workerd" zBool
      let bun ← nullableOptField fs "bun" zBool
      .ok { browser := browser, deno := deno, node := node, workerd := workerd, bun := bun }
  | _ => .error "Expected object"

structure UpdatePackageArgs where
  scope : String
  name : String
  description : Option String
  githubRepository : Option (Option GithubRepoArgs)
  runtimeCompat : Option RuntimeCompatArgs
  isArchived : Option Bool

/-- UpdatePackageSchema: scope, name, then optional description (max 250),
nullable optional githubRepository, optional runtimeCompat, optional
isArchived. -/
def parseUpdatePackage : JValue → Except String UpdatePackageArgs
  | .obj fs => do
      let scope ← reqField fs "scope" zScopeName
      let name ← reqField fs "name" zPackageName
      let description ← optField fs "description" (zStringMax 250)
      let gh ← nullableOptField fs "githubRepository" parseGithubRepo
      let rc ← optField fs "runtimeCompat" parseRuntimeCompat
      let isArchived ← optField fs "isArchived" zBool
      .ok { scope := scope, name := name, description := description,
            githubRepository := gh, runtimeCompat := rc, isArchived := isArchived }
  | _ => .error "Expected object"

structure CreatePackageVersionArgs where
  scope : String
  name : String
  version : String
  configPath : String
  tarballPath : String

/-- CreatePackageVersionSchema: GetPackageVersionSchema plus configPath and
tarballPath, both arbitrary strings (no existence check). -/
def parseCreatePackageVersion : JValue → Except String CreatePackageVersionArgs
  | .obj fs => do
      let scope ← reqField fs "scope" zScopeName
      let name ← reqField fs "name" zPackageName
      let version ← reqField fs "version" zString
      let configPath ← reqField fs "configPath" zString
      let tarballPath ← reqField fs "tarballPath" zString
      .ok { scope := scope, name := name, version := version,
            configPath := configPath, tarballPath := tarballPath }
  | _ => .error "Expected object"

structure UpdatePackageVersionArgs where
  scope : String
  name : String
  version : String
  yanked : Bool

/-- UpdatePackageVersionSchema. -/
def parseUpdatePackageVersion : JValue → Except String UpdatePackageVersionArgs
  | .obj fs => do
      let scope ← reqField fs "scope" zScopeName
      let name ← reqField fs "name" zPackageName
      let version ← reqField fs "version" zString
      let yanked ← reqField fs "yanked" zBool
      .ok { scope := scope, name := name, version := version, yanked := yanked }
  | _ => .error "Expected object"

/-- A parsed element of the PermissionSchema union. -/
inductive PermissionArg where
  | publishScope (scope : String)
  | publishPackage (scope pkg : String)
  | publishVersion (scope pkg version tarballHash : String)

/-- z.literal("package/publish"). -/
def zPublishLiteral : JValue → Except String Unit
  | .str s => if s = "package/publish" then .ok () else .error "Invalid literal value"
  | _ => .error "Invalid literal value"

def parsePermissionScope : JValue → Except String PermissionArg
  | .obj fs => do
      let _ ← reqField fs "permission" zPublishLiteral
      let scope ← reqField fs "scope" zScopeName
      .ok (.publishScope scope)
  | _ => .error "Invalid input"

def parsePermissionPackage : JValue → Except String PermissionArg
  | .obj fs => do
      let _ ← reqField fs "permission" zPublishLiteral
      let scope ← reqField fs "scope" zScopeName
      let pkg ← reqField fs "package" zPackageName
      .ok (.publishPackage scope pkg)
  | _ => .error "Invalid input"

def parsePermissionVersion : JValue → Except String PermissionArg
  | .obj fs => do
      let _ ← reqField fs "permission" zPublishLiteral
      let scope ← reqField fs "scope" zScopeName
      let pkg ← reqField fs "package" zPackageName
      let version ← reqField fs "version" zString
      let hash ← reqField fs "tarballHash" zString
      .ok (.publishVersion scope pkg version hash)
  | _ => .error "Invalid input"

/-- PermissionSchema: a union tried in declaration order; the first matching
branch wins (and strips the keys the branch does not declare). -/
def parsePermission (v : JValue) : Except String PermissionArg :=
  match parsePermissionScope v with
  | .ok p => .ok p
  | .error _ =>
      match parsePermissionPackage v with
      | .ok p => .ok p
      | .error _ => parsePermissionVersion v

/-- z.array(PermissionSchema). -/
def zPermissionArray : JValue → Except String (List PermissionArg)
  | .arr xs => xs.mapM parsePermission
  | _ => .error "Expected array"

structure CreateAuthorizationArgs where
  challenge : String
  permissions : Option (List PermissionArg)

/-- CreateAuthorizationSchema. -/
def parseCreateAuthorization : JValue → Except String CreateAuthorizationArgs
  | .obj fs => do
      let challenge ← reqField fs "challenge" zString
      let permissions ← optField fs "permissions" zPermissionArray
      .ok { challenge := challenge, permissions := permissions }
  | _ => .error "Expected object"

structure CodeArgs where
  code : String

/-- GetAuthorizationDetailsSchema (ApproveAuthorizationSchema and
DenyAuthorizationSchema are structurally identical objects in the source). -/
def parseAuthorizationCode : JValue → Except String CodeArgs
  | .obj fs => do
      let code ← reqField fs "code" zString
      .ok { code := code }
  | _ => .error "Expected object"

structure ExchangeAuthorizationArgs where
  exchangeToken : String
  verifier : String

/-- ExchangeAuthorizationSchema. -/
def parseExchangeAuthorization : JValue → Except String ExchangeAuthorizationArgs
  | .obj fs => do
      let exchangeToken ← reqField fs "exchangeToken" zString
      let verifier ← reqField fs "verifier" zString
      .ok { exchangeToken := exchangeToken, verifier := verifier }
  | _ => .error "Expected object"

/-! Section: The server-embedded JSR client operations (src/src/clients/jsr.ts).
Each is a pure function of the configuration, its typed arguments and the
fetch environment, yielding the decoded result (or failure message) together
with the requests it issued. -/

/-- params.set(key, String(v)) guarded by v !== undefined. -/
def optParam (key : String) (v : Option Int) : List (String × String) :=
  match v with
  | some n => [(key, toString n)]
  | none => []

/-- params.set(key, s) guarded by JS truthiness of the optional string. -/
def truthyParam (key : String) (v : Option String) : List (String × String) :=
  match v with
  | some s => if s.isEmpty then [] else [(key, s)]
  | none => []

def searchPackages (cfg : JSRConfig) (query : Option String) (limit page : Option Int)
    (env : FetchEnv) : Except String JValue × List HttpRequest :=
  let params := truthyParam "query" query ++ optParam "limit" limit ++ optParam "page" page
  makeApiRequest cfg ("/packages?" ++ paramsToString params) {} env

def getPackage (cfg : JSRConfig) (scope name : String) (env : FetchEnv) :
    Except String JValue × List HttpRequest :=
  makeApiRequest cfg ("/scopes/" ++ scope ++ "/packages/" ++ name) {} env

def getPackageVersion (cfg : JSRConfig) (scope name version : String) (env : FetchEnv) :
    Except String JValue × List HttpRequest :=
  makeApiRequest cfg
    ("/scopes/" ++ scope ++ "/packages/" ++ name ++ "/versions/" ++ version) {} env

def listPackageVersions (cfg : JSRConfig) (scope name : String) (limit page : Option Int)
    (env : FetchEnv) : Except String Paginated × List HttpRequest :=
  let params := optParam "limit" limit ++ optParam "page" page
  let out := makeApiRequest cfg
    ("/scopes/" ++ scope ++ "/packages/" ++ name ++ "/versions?" ++ paramsToString params)
    {} env
  (out.1.bind fun v => (decodeArray v).map fun xs => packageVersionsRepack xs limit page,
   out.2)

def getScope (cfg : JSRConfig) (scope : String) (env : FetchEnv) :
    Except String JValue × List HttpRequest :=
  makeApiRequest cfg ("/scopes/" ++ scope) {} env

def listScopePackages (cfg : JSRConfig) (scope : String) (limit skip : Option Int)
    (env : FetchEnv) : Except String Paginated × List HttpRequest :=
  let page := listScopePackagesPage skip limit
  let params := optParam "limit" limit ++
    (if page > 1 then [("page", toString page)] else [])
  let out := makeApiRequest cfg
    ("/scopes/" ++ scope ++ "/packages?" ++ paramsToString params) {} env
  (out.1.bind fun v =>
      (decodeItemsTotal v).map fun it => scopePackagesRepack it.1 it.2 limit skip,
   out.2)

def getPackageMetadata (cfg : JSRConfig) (scope name : String) (env : FetchEnv) :
    Except String JValue × List HttpRequest :=
  makeRegistryRequest cfg ("/@" ++ scope ++ "/" ++ name ++ "/meta.json") {} env

def listPackages (cfg : JSRConfig) (limit page : Option Int) (query : Option String)
    (env : FetchEnv) : Except String JValue × List HttpRequest :=
  let params := optParam "limit" limit ++ optParam "page" page ++ truthyParam "query" query
  makeApiRequest cfg ("/packages?" ++ paramsToString params) {} env

def getPackageDependents (cfg : JSRConfig) (scope name : String)
    (limit page versionsPerPackageLimit : Option Int) (env : FetchEnv) :
    Except String Paginated × List HttpRequest :=
  let params := optParam "limit" limit ++ optParam "page" page ++
    optParam "versions_per_package_limit" versionsPerPackageLimit
  let out := makeApiRequest cfg
    ("/scopes/" ++ scope ++ "/packages/" ++ name ++ "/dependents?" ++ paramsToString params)
    {} env
  (out.1.bind fun v =>
      (decodeItemsTotal v).map fun it => dependentsRepack it.1 it.2 limit page,
   out.2)

def getPackageScore (cfg : JSRConfig) (scope name : String) (env : FetchEnv) :
    Except String JValue × List HttpRequest :=
  makeApiRequest cfg ("/scopes/" ++ scope ++ "/packages/" ++ name ++ "/score") {} env

def getPackageDependencies (cfg : JSRConfig) (scope name version : String) (env : FetchEnv) :
    Except String JValue × List HttpRequest :=
  makeApiRequest cfg
    ("/scopes/" ++ scope ++ "/packages/" ++ name ++ "/versions/" ++ version ++ "/dependencies")
    {} env

def getCurrentUser (cfg : JSRConfig) (env : FetchEnv) :
    Except String JValue × List HttpRequest :=
  makeApiRequest cfg "/user" {} env

def getCurrentUserScopes (cfg : JSRConfig) (env : FetchEnv) :
    Except String JValue × List HttpRequest :=
  makeApiRequest cfg "/user/scopes" {} env

def getCurrentUserScopeMember (cfg : JSRConfig) (scope : String) (env : FetchEnv) :
    Except String JValue × List HttpRequest :=
  makeApiRequest cfg ("/user/member/" ++ scope) {} env

def getCurrentUserInvites (cfg : JSRConfig) (env : FetchEnv) :
    Except String JValue × List HttpRequest :=
  makeApiRequest cfg "/user/invites" {} env

def getUser (cfg : JSRConfig) (userId : String) (env : FetchEnv) :
    Except String JValue × List HttpRequest :=
  makeApiRequest cfg ("/users/" ++ userId) {} env

def getUserScopes (cfg : JSRConfig) (userId : String) (env : FetchEnv) :
    Except String JValue × List HttpRequest :=
  makeApiRequest cfg ("/users/" ++ userId ++ "/scopes") {} env

def listScopeMembers (cfg : JSRConfig) (scope : String) (env : FetchEnv) :
    Except String JValue × List HttpRequest :=
  makeApiRequest cfg ("/scopes/" ++ scope ++ "/members") {} env

def listScopeInvites (cfg : JSRConfig) (scope : String) (env : FetchEnv) :
    Except String JValue × List HttpRequest :=
  makeApiRequest cfg ("/scopes/" ++ scope ++ "/invites") {} env

def getPublishingTask (cfg : JSRConfig) (taskId : String) (env : FetchEnv) :
    Except String JValue × List HttpRequest :=
  makeApiRequest cfg ("/publishing_tasks/" ++ taskId) {} env

def getStats (cfg : JSRConfig) (env : FetchEnv) :
    Except String JValue × List HttpRequest :=
  makeApiRequest cfg "/stats" {} env

/-- createScope: POST with body JSON.stringify of scope plus description
(an undefined description is omitted by JSON.stringify). -/
def createScope (cfg : JSRConfig) (scope : String) (description : Option String)
    (env : FetchEnv) : Except String JValue × List HttpRequest :=
  let body := jsonStringify (.obj ([("scope", .str scope)] ++
    (match description with | some d => [("description", .str d)] | none => [])))
  makeApiRequest cfg "/scopes" { method := "POST", body := some body } env

/-- updateScope: PATCH with body JSON.stringify(updates); the updates object
is built by the caller. -/
def updateScope (cfg : JSRConfig) (scope : String) (updates : List (String × JValue))
    (env : FetchEnv) : Except String JValue × List HttpRequest :=
  makeApiRequest cfg ("/scopes/" ++ scope)
    { method := "PATCH", body := some (jsonStringify (.obj updates)) } env

def deleteScope (cfg : JSRConfig) (scope : String) (env : FetchEnv) :
    Except String JValue × List HttpRequest :=
  makeApiRequest cfg ("/scopes/" ++ scope) { method := "DELETE" } env

def addScopeMember (cfg : JSRConfig) (scope githubLogin : String) (env : FetchEnv) :
    Except String JValue × List HttpRequest :=
  makeApiRequest cfg ("/scopes/" ++ scope ++ "/members")
    { method := "POST"
      body := some (jsonStringify (.obj [("githubLogin", .str githubLogin)])) } env

def updateScopeMember (cfg : JSRConfig) (scope userId : String) (isAdmin : Bool)
    (env : FetchEnv) : Except String JValue × List HttpRequest :=
  makeApiRequest cfg ("/scopes/" ++ scope ++ "/members/" ++ userId)
    { method := "PATCH"
      body := some (jsonStringify (.obj [("isAdmin", .bool isAdmin)])) } env

def removeScopeMember (cfg : JSRConfig) (scope userId : String) (env : FetchEnv) :
    Except String JValue × List HttpRequest :=
  makeApiRequest cfg ("/scopes/" ++ scope ++ "/members/" ++ userId)
    { method := "DELETE" } env

def deleteScopeInvite (cfg : JSRConfig) (scope userId : String) (env : FetchEnv) :
    Except String JValue × List HttpRequest :=
  makeApiRequest cfg ("/scopes/" ++ scope ++ "/invites/" ++ userId)
    { method := "DELETE" } env

def createPackage (cfg : JSRConfig) (scope packageName : String) (env : FetchEnv) :
    Except String JValue × List HttpRequest :=
  makeApiRequest cfg ("/scopes/" ++ scope ++ "/packages")
    { method := "POST"
      body := some (jsonStringify (.obj [("package", .str packageName)])) } env

/-- updatePackage: PATCH with body JSON.stringify(updates). -/
def updatePackage (cfg : JSRConfig) (scope name : String) (updates : List (String × JValue))
    (env : FetchEnv) : Except String JValue × List HttpRequest :=
  makeApiRequest cfg ("/scopes/" ++ scope ++ "/packages/" ++ name)
    { method := "PATCH", body := some (jsonStringify (.obj updates)) } env

def deletePackage (cfg : JSRConfig) (scope name : String) (env : FetchEnv) :
    Except String JValue × List HttpRequest :=
  makeApiRequest cfg ("/scopes/" ++ scope ++ "/packages/" ++ name)
    { method := "DELETE" } env

/-- createPackageVersion: POST of the raw tarball bytes with an
octet-stream content type; the config path travels as a query parameter. -/
def createPackageVersion (cfg : JSRConfig) (scope name version configPath : String)
    (tarballData : String) (env : FetchEnv) : Except String JValue × List HttpRequest :=
  let params := [("config", configPath)]
  makeApiRequest cfg
    ("/scopes/" ++ scope ++ "/packages/" ++ name ++ "/versions/" ++ version ++ "?" ++
      paramsToString params)
    { method := "POST"
      headers := [("Content-Type", "application/octet-stream")]
      body := some tarballData } env

def updatePackageVersion (cfg : JSRConfig) (scope name version : String) (yanked : Bool)
    (env : FetchEnv) : Except String JValue × List HttpRequest :=
  makeApiRequest cfg
    ("/scopes/" ++ scope ++ "/packages/" ++ name ++ "/versions/" ++ version)
    { method := "PATCH"
      body := some (jsonStringify (.obj [("yanked", .bool yanked)])) } env

def acceptScopeInvite (cfg : JSRConfig) (scope : String) (env : FetchEnv) :
    Except String JValue × List HttpRequest :=
  makeApiRequest cfg ("/user/invites/" ++ scope) { method := "POST" } env

def declineScopeInvite (cfg : JSRConfig) (scope : String) (env : FetchEnv) :
    Except String JValue × List HttpRequest :=
  makeApiRequest cfg ("/user/invites/" ++ scope) { method := "DELETE" } env

/-- The JSON value a parsed permission serializes back to in a request
body. -/
def PermissionArg.toJValue : PermissionArg → JValue
  | .publishScope scope =>
      .obj [("permission", .str "package/publish"), ("scope", .str scope)]
  | .publishPackage scope pkg =>
      .obj [("permission", .str "package/publish"), ("scope", .str scope),
            ("package", .str pkg)]
  | .publishVersion scope pkg version hash =>
      .obj [("permission", .str "package/publish"), ("scope", .str scope),
            ("package", .str pkg), ("version", .str version), ("tarballHash", .str hash)]

/-- createAuthorization: POST with body JSON.stringify of challenge and
permissions (an undefined permissions key is omitted). -/
def createAuthorization (cfg : JSRConfig) (challenge : String)
    (permissions : Option (List PermissionArg)) (env : FetchEnv) :
    Except String JValue × List HttpRequest :=
  let body := jsonStringify (.obj ([("challenge", .str challenge)] ++
    (match permissions with
     | some ps => [("permissions", .arr (ps.map PermissionArg.toJValue))]
     | none => [])))
  makeApiRequest cfg "/authorizations" { method := "POST", body := some body } env

def getAuthorizationDetails (cfg : JSRConfig) (code : String) (env : FetchEnv) :
    Except String JValue × List HttpRequest :=
  makeApiRequest cfg ("/authorizations/details/" ++ code) {} env

def approveAuthorization (cfg : JSRConfig) (code : String) (env : FetchEnv) :
    Except String JValue × List HttpRequest :=
  makeApiRequest cfg ("/authorizations/approve/" ++ code) { method := "POST" } env

def denyAuthorization (cfg : JSRConfig) (code : String) (env : FetchEnv) :
    Except String JValue × List HttpRequest :=
  makeApiRequest cfg ("/authorizations/deny/" ++ code) { method := "POST" } env

def exchangeAuthorizationCode (cfg : JSRConfig) (exchangeToken verifier : String)
    (env : FetchEnv) : Except String JValue × List HttpRequest :=
  makeApiRequest cfg "/authorizations/exchange"
    { method := "POST"
      body := some (jsonStringify (.obj [("exchangeToken", .str exchangeToken),
        ("verifier", .str verifier)])) } env

/-! Section: The tool dispatcher handleJSRTool (src/src/tools/jsr-tools.ts).

The source is one switch over the tool name; each case parses the raw
arguments against its schema, invokes the client operation, and wraps the
value in a single text content part.  The switch is embedded as a lookup
table of cases; each case that validates is built with mkToolHandler, the
exact parse-then-run shape every case of the source repeats. -/

/-- One fragment of a tool result's content (all fragments here are text). -/
inductive ContentPart where
  | text (s : String)
deriving Repr, DecidableEq

/-- MCPToolResult: content parts plus the optional isError flag (absent on
success). -/
structure MCPToolResult where
  content : List ContentPart
  isError : Option Bool := none
deriving Repr, DecidableEq

/-- A tool case body: from raw arguments, configuration and environment to
either content parts or a raised failure message, plus issued requests. -/
abbrev ToolHandler :=
  JValue → JSRConfig → FetchEnv → Except String (List ContentPart) × List HttpRequest

/-- The parse-then-run shape of every validating case of the switch:
Schema.parse(args) raises (here: short-circuits with the parse failure and
an empty request list), then the case body runs on the typed arguments. -/
def mkToolHandler (parse : JValue → Except String α)
    (run : α → JSRConfig → FetchEnv →
      Except String (List ContentPart) × List HttpRequest) : ToolHandler :=
  fun args cfg env =>
    match parse args with
    | .error m => (.error m, [])
    | .ok p => run p cfg env

/-- The success content of a JSON-returning case:
a single text part holding JSON.stringify(result, null, 2). -/
def jsonContent (r : Except String JValue) : Except String (List ContentPart) :=
  r.map fun v => [ContentPart.text (jsonStringify v)]

/-- The success content of a paginated case. -/
def paginatedContent (r : Except String Paginated) : Except String (List ContentPart) :=
  r.map fun p => [ContentPart.text (jsonStringify p.toJValue)]

/-- The success content of a void case: a fixed confirmation string. -/
def fixedContent (r : Except String JValue) (msg : String) :
    Except String (List ContentPart) :=
  r.map fun _ => [ContentPart.text msg]

def searchPackagesTool : ToolHandler :=
  mkToolHandler parseSearchPackages fun p cfg env =>
    let page := dispatchSearchPage p.skip p.limit
    let out := searchPackages cfg p.query p.limit page env
    (jsonContent out.1, out.2)

def getPackageTool : ToolHandler :=
  mkToolHandler parseGetPackage fun p cfg env =>
    let out := getPackage cfg p.scope p.name env
    (jsonContent out.1, out.2)

def getPackageVersionTool : ToolHandler :=
  mkToolHandler parseGetPackageVersion fun p cfg env =>
    let out := getPackageVersion cfg p.scope p.name p.version env
    (jsonContent out.1, out.2)

def listPackageVersionsTool : ToolHandler :=
  mkToolHandler parseListPackageVersions fun p cfg env =>
    let out := listPackageVersions cfg p.scope p.name p.limit p.page env
    (paginatedContent out.1, out.2)

def getScopeTool : ToolHandler :=
  mkToolHandler parseGetScope fun p cfg env =>
    let out := getScope cfg p.scope env
    (jsonContent out.1, out.2)

def listScopePackagesTool : ToolHandler :=
  mkToolHandler parseListScopePackages fun p cfg env =>
    let out := listScopePackages cfg p.scope p.limit p.skip env
    (paginatedContent out.1, out.2)

/-- The jsr_get_package_metadata case parses with GetPackageSchema. -/
def getPackageMetadataTool : ToolHandler :=
  mkToolHandler parseGetPackage fun p cfg env =>
    let out := getPackageMetadata cfg p.scope p.name env
    (jsonContent out.1, out.2)

def listPackagesTool : ToolHandler :=
  mkToolHandler parseListPackages fun p cfg env =>
    let out := listPackages cfg p.limit p.page p.query env
    (jsonContent out.1, out.2)

def getPackageDependentsTool : ToolHandler :=
  mkToolHandler parseGetPackageDependents fun p cfg env =>
    let out := getPackageDependents cfg p.scope p.name p.limit p.page
      p.versionsPerPackageLimit env
    (paginatedContent out.1, out.2)

/-- GetPackageScoreSchema is GetPackageSchema in the source. -/
def getPackageScoreTool : ToolHandler :=
  mkToolHandler parseGetPackage fun p cfg env =>
    let out := getPackageScore cfg p.scope p.name env
    (jsonContent out.1, out.2)

/-- GetPackageDependenciesSchema is GetPackageVersionSchema in the source. -/
def getPackageDependenciesTool : ToolHandler :=
  mkToolHandler parseGetPackageVersion fun p cfg env =>
    let out := getPackageDependencies cfg p.scope p.name p.version env
    (jsonContent out.1, out.2)

/-- The jsr_get_current_user case performs no argument validation. -/
def getCurrentUserTool : ToolHandler := fun _ cfg env =>
  let out := getCurrentUser cfg env
  (jsonContent out.1, out.2)

def getCurrentUserScopesTool : ToolHandler := fun _ cfg env =>
  let out := getCurrentUserScopes cfg env
  (jsonContent out.1, out.2)

/-- GetSelfUserScopeMemberSchema is GetScopeSchema in the source. -/
def getCurrentUserScopeMemberTool : ToolHandler :=
  mkToolHandler parseGetScope fun p cfg env =>
    let out := getCurrentUserScopeMember cfg p.scope env
    (jsonContent out.1, out.2)

def getCurrentUserInvitesTool : ToolHandler := fun _ cfg env =>
  let out := getCurrentUserInvites cfg env
  (jsonContent out.1, out.2)

def getUserTool : ToolHandler :=
  mkToolHandler parseGetUser fun p cfg env =>
    let out := getUser cfg p.id env
    (jsonContent out.1, out.2)

/-- GetUserScopesSchema is GetUserSchema in the source. -/
def getUserScopesTool : ToolHandler :=
  mkToolHandler parseGetUser fun p cfg env =>
    let out := getUserScopes cfg p.id env
    (jsonContent out.1, out.2)

/-- ListScopeMembersSchema is GetScopeSchema in the source. -/
def listScopeMembersTool : ToolHandler :=
  mkToolHandler parseGetScope fun p cfg env =>
    let out := listScopeMembers cfg p.scope env
    (jsonContent out.1, out.2)

/-- ListScopeInvitesSchema is GetScopeSchema in the source. -/
def listScopeInvitesTool : ToolHandler :=
  mkToolHandler parseGetScope fun p cfg env =>
    let out := listScopeInvites cfg p.scope env
    (jsonContent out.1, out.2)

def getPublishingTaskTool : ToolHandler :=
  mkToolHandler parseGetPublishingTask fun p cfg env =>
    let out := getPublishingTask cfg p.id env
    (jsonContent out.1, out.2)

def getStatsTool : ToolHandler := fun _ cfg env =>
  let out := getStats cfg env
  (jsonContent out.1, out.2)

def createScopeTool : ToolHandler :=
  mkToolHandler parseCreateScope fun p cfg env =>
    let out := createScope cfg p.scope p.description env
    (jsonContent out.1, out.2)

/-- The jsr_update_scope case copies only the supplied settings into the
updates object. -/
def updateScopeTool : ToolHandler :=
  mkToolHandler parseUpdateScope fun p cfg env =>
    let updates :=
      (match p.ghActionsVerifyActor with
       | some b => [("ghActionsVerifyActor", JValue.bool b)]
       | none => []) ++
      (match p.requirePublishingFromCI with
       | some b => [("requirePublishingFromCI", JValue.bool b)]
       | none => [])
    let out := updateScope cfg p.scope updates env
    (jsonContent out.1, out.2)

def deleteScopeTool : ToolHandler :=
  mkToolHandler parseGetScope fun p cfg env =>
    let out := deleteScope cfg p.scope env
    (fixedContent out.1 "Scope deleted successfully", out.2)

def addScopeMemberTool : ToolHandler :=
  mkToolHandler parseAddScopeMember fun p cfg env =>
    let out := addScopeMember cfg p.scope p.githubLogin env
    (jsonContent out.1, out.2)

def updateScopeMemberTool : ToolHandler :=
  mkToolHandler parseUpdateScopeMember fun p cfg env =>
    let out := updateScopeMember cfg p.scope p.userId p.isAdmin env
    (jsonContent out.1, out.2)

def removeScopeMemberTool : ToolHandler :=
  mkToolHandler parseRemoveScopeMember fun p cfg env =>
    let out := removeScopeMember cfg p.scope p.userId env
    (fixedContent out.1 "Scope member removed successfully", out.2)

def deleteScopeInviteTool : ToolHandler :=
  mkToolHandler parseDeleteScopeInvite fun p cfg env =>
    let out := deleteScopeInvite cfg p.scope p.userId env
    (fixedContent out.1 "Scope invite deleted successfully", out.2)

def createPackageTool : ToolHandler :=
  mkToolHandler parseCreatePackage fun p cfg env =>
    let out := createPackage cfg p.scope p.package env
    (jsonContent out.1, out.2)

/-- The JSON value a parsed runtimeCompat serializes back to (absent fields
are omitted, null fields are null). -/
def RuntimeCompatArgs.toJValue (rc : RuntimeCompatArgs) : JValue :=
  let field (key : String) : Option (Option Bool) → List (String × JValue)
    | some (some b) => [(key, JValue.bool b)]
    | some none => [(key, JValue.null)]
    | none => []
  .obj (field "browser" rc.browser ++ field "deno" rc.deno ++ field "node" rc.node ++
    field "workerd" rc.workerd ++ field "bun" rc.bun)

/-- The jsr_update_package case copies only the supplied fields into the
updates object (a null githubRepository is copied as null). -/
def updatePackageTool : ToolHandler :=
  mkToolHandler parseUpdatePackage fun p cfg env =>
    let updates :=
      (match p.description with
       | some d => [("description", JValue.str d)]
       | none => []) ++
      (match p.githubRepository with
       | some (some g) =>
           [("githubRepository", JValue.obj [("owner", .str g.owner), ("repo", .str g.repo)])]
       | some none => [("githubRepository", JValue.null)]
       | none => []) ++
      (match p.runtimeCompat with
       | some rc => [("runtimeCompat", rc.toJValue)]
       | none => []) ++
      (match p.isArchived with
       | some b => [("isArchived", JValue.bool b)]
       | none => [])
    let out := updatePackage cfg p.scope p.name updates env
    (jsonContent out.1, out.2)

def deletePackageTool : ToolHandler :=
  mkToolHandler parseGetPackage fun p cfg env =>
    let out := deletePackage cfg p.scope p.name env
    (fixedContent out.1 "Package deleted successfully", out.2)

/-- The jsr_create_package_version case: after validation it reads the local
tarball file (Deno.readFile) - a read failure is raised before any request
is built - and only then performs the upload. -/
def createPackageVersionTool : ToolHandler :=
  mkToolHandler parseCreatePackageVersion fun p cfg env =>
    match env.readFile p.tarballPath with
    | .error m => (.error m, [])
    | .ok tarballData =>
        let out := createPackageVersion cfg p.scope p.name p.version p.configPath
          tarballData env
        (jsonContent out.1, out.2)

def updatePackageVersionTool : ToolHandler :=
  mkToolHandler parseUpdatePackageVersion fun p cfg env =>
    let out := updatePackageVersion cfg p.scope p.name p.version p.yanked env
    (jsonContent out.1, out.2)

def acceptScopeInviteTool : ToolHandler :=
  mkToolHandler parseGetScope fun p cfg env =>
    let out := acceptScopeInvite cfg p.scope env
    (jsonContent out.1, out.2)

def declineScopeInviteTool : ToolHandler :=
  mkToolHandler parseGetScope fun p cfg env =>
    let out := declineScopeInvite cfg p.scope env
    (fixedContent out.1 "Scope invite declined successfully", out.2)

def createAuthorizationTool : ToolHandler :=
  mkToolHandler parseCreateAuthorization fun p cfg env =>
    let out := createAuthorization cfg p.challenge p.permissions env
    (jsonContent out.1, out.2)

def getAuthorizationDetailsTool : ToolHandler :=
  mkToolHandler parseAuthorizationCode fun p cfg env =>
    let out := getAuthorizationDetails cfg p.code env
    (jsonContent out.1, out.2)

def approveAuthorizationTool : ToolHandler :=
  mkToolHandler parseAuthorizationCode fun p cfg env =>
    let out := approveAuthorization cfg p.code env
    (fixedContent out.1 "Authorization approved successfully", out.2)

def denyAuthorizationTool : ToolHandler :=
  mkToolHandler parseAuthorizationCode fun p cfg env =>
    let out := denyAuthorization cfg p.code env
    (fixedContent out.1 "Authorization denied successfully", out.2)

def exchangeAuthorizationTool : ToolHandler :=
  mkToolHandler parseExchangeAuthorization fun p cfg env =>
    let out := exchangeAuthorizationCode cfg p.exchangeToken p.verifier env
    (jsonContent out.1, out.2)

attribute [reducible] searchPackagesTool getPackageTool getPackageVersionTool
  listPackageVersionsTool getScopeTool listScopePackagesTool getPackageMetadataTool
  listPackagesTool getPackageDependentsTool getPackageScoreTool getPackageDependenciesTool
  getCurrentUserTool getCurrentUserScopesTool getCurrentUserScopeMemberTool
  getCurrentUserInvitesTool getUserTool getUserScopesTool listScopeMembersTool
  listScopeInvitesTool getPublishingTaskTool getStatsTool createScopeTool updateScopeTool
  deleteScopeTool addScopeMemberTool updateScopeMemberTool removeScopeMemberTool
  deleteScopeInviteTool createPackageTool updatePackageTool deletePackageTool
  createPackageVersionTool updatePackageVersionTool acceptScopeInviteTool
  declineScopeInviteTool createAuthorizationTool getAuthorizationDetailsTool
  approveAuthorizationTool denyAuthorizationTool exchangeAuthorizationTool

/-- One case of the handleJSRTool switch: the tool's wire name, the keys its
input schema declares, the schema check alone (the case's Schema.parse, used
to state validation properties), and the full case body. -/
structure ToolEntry where
  name : String
  keys : List String
  validate : JValue → Except String Unit
  run : ToolHandler

/-- A parser viewed as a pure check. -/
def toUnit (p : JValue → Except String α) : JValue → Except String Unit :=
  fun v => (p v).map fun _ => ()

/-- The validation view of a case without a parse call. -/
def okUnit : JValue → Except String Unit := fun _ => .ok ()

/-- The switch of handleJSRTool, one entry per case, in source order. -/
def jsrToolTable : List ToolEntry :=
  [ { name := "jsr_search_packages", keys := ["limit", "skip", "query"],
      validate := toUnit parseSearchPackages, run := searchPackagesTool },
    { name := "jsr_get_package", keys := ["scope", "name"],
      validate := toUnit parseGetPackage, run := getPackageTool },
    { name := "jsr_get_package_version", keys := ["scope", "name", "version"],
      validate := toUnit parseGetPackageVersion, run := getPackageVersionTool },
    { name := "jsr_list_package_versions", keys := ["scope", "name", "limit", "page"],
      validate := toUnit parseListPackageVersions, run := listPackageVersionsTool },
    { name := "jsr_get_scope", keys := ["scope"],
      validate := toUnit parseGetScope, run := getScopeTool },
    { name := "jsr_list_scope_packages", keys := ["scope", "limit", "skip"],
      validate := toUnit parseListScopePackages, run := listScopePackagesTool },
    { name := "jsr_get_package_metadata", keys := ["scope", "name"],
      validate := toUnit parseGetPackage, run := getPackageMetadataTool },
    { name := "jsr_list_packages", keys := ["limit", "page", "query"],
      validate := toUnit parseListPackages, run := listPackagesTool },
    { name := "jsr_get_package_dependents",
      keys := ["scope", "name", "limit", "page", "versionsPerPackageLimit"],
      validate := toUnit parseGetPackageDependents, run := getPackageDependentsTool },
    { name := "jsr_get_package_score", keys := ["scope", "name"],
      validate := toUnit parseGetPackage, run := getPackageScoreTool },
    { name := "jsr_get_package_dependencies", keys := ["scope", "name", "version"],
      validate := toUnit parseGetPackageVersion, run := getPackageDependenciesTool },
    { name := "jsr_get_current_user", keys := [],
      validate := okUnit, run := getCurrentUserTool },
    { name := "jsr_get_current_user_scopes", keys := [],
      validate := okUnit, run := getCurrentUserScopesTool },
    { name := "jsr_get_current_user_scope_member", keys := ["scope"],
      validate := toUnit parseGetScope, run := getCurrentUserScopeMemberTool },
    { name := "jsr_get_current_user_invites", keys := [],
      validate := okUnit, run := getCurrentUserInvitesTool },
    { name := "jsr_get_user", keys := ["id"],
      validate := toUnit parseGetUser, run := getUserTool },
    { name := "jsr_get_user_scopes", keys := ["id"],
      validate := toUnit parseGetUser, run := getUserScopesTool },
    { name := "jsr_list_scope_members", keys := ["scope"],
      validate := toUnit parseGetScope, run := listScopeMembersTool },
    { name := "jsr_list_scope_invites", keys := ["scope"],
      validate := toUnit parseGetScope, run := listScopeInvitesTool },
    { name := "jsr_get_publishing_task", keys := ["id"],
      validate := toUnit parseGetPublishingTask, run := getPublishingTaskTool },
    { name := "jsr_get_stats", keys := [],
      validate := okUnit, run := getStatsTool },
    { name := "jsr_create_scope", keys := ["scope", "description"],
      validate := toUnit parseCreateScope, run := createScopeTool },
    { name := "jsr_update_scope",
      keys := ["scope", "ghActionsVerifyActor", "requirePublishingFromCI"],
      validate := toUnit parseUpdateScope, run := updateScopeTool },
    { name := "jsr_delete_scope", keys := ["scope"],
      validate := toUnit parseGetScope, run := deleteScopeTool },
    { name := "jsr_add_scope_member", keys := ["scope", "githubLogin"],
      validate := toUnit parseAddScopeMember, run := addScopeMemberTool },
    { name := "jsr_update_scope_member", keys := ["scope", "userId", "isAdmin"],
      validate := toUnit parseUpdateScopeMember, run := updateScopeMemberTool },
    { name := "jsr_remove_scope_member", keys := ["scope", "userId"],
      validate := toUnit parseRemoveScopeMember, run := removeScopeMemberTool },
    { name := "jsr_delete_scope_invite", keys := ["scope", "userId"],
      validate := toUnit parseDeleteScopeInvite, run := deleteScopeInviteTool },
    { name := "jsr_create_package", keys := ["scope", "package"],
      validate := toUnit parseCreatePackage, run := createPackageTool },
    { name := "jsr_update_package",
      keys := ["scope", "name", "description", "githubRepository", "runtimeCompat",
        "isArchived"],
      validate := toUnit parseUpdatePackage, run := updatePackageTool },
    { name := "jsr_delete_package", keys := ["scope", "name"],
      validate := toUnit parseGetPackage, run := deletePackageTool },
    { name := "jsr_create_package_version",
      keys := ["scope", "name", "version", "configPath", "tarballPath"],
      validate := toUnit parseCreatePackageVersion, run := createPackageVersionTool },
    { name := "jsr_update_package_version", keys := ["scope", "name", "version", "yanked"],
      validate := toUnit parseUpdatePackageVersion, run := updatePackageVersionTool },
    { name := "jsr_accept_scope_invite", keys := ["scope"],
      validate := toUnit parseGetScope, run := acceptScopeInviteTool },
    { name := "jsr_decline_scope_invite", keys := ["scope"],
      validate := toUnit parseGetScope, run := declineScopeInviteTool },
    { name := "jsr_create_authorization", keys := ["challenge", "permissions"],
      validate := toUnit parseCreateAuthorization, run := createAuthorizationTool },
    { name := "jsr_get_authorization_details", keys := ["code"],
      validate := toUnit parseAuthorizationCode, run := getAuthorizationDetailsTool },
    { name := "jsr_approve_authorization", keys := ["code"],
      validate := toUnit parseAuthorizationCode, run := approveAuthorizationTool },
    { name := "jsr_deny_authorization", keys := ["code"],
      validate := toUnit parseAuthorizationCode, run := denyAuthorizationTool },
    { name := "jsr_exchange_authorization", keys := ["exchangeToken", "verifier"],
      validate := toUnit parseExchangeAuthorization, run := exchangeAuthorizationTool } ]

/-- The wire names of the registered tools. -/
def jsrToolNames : List String := jsrToolTable.map (fun e => e.name)

/-- The body of the try block of handleJSRTool: the switch.  A name with no
case raises the default case's error. -/
def dispatchJSRTool (name : String) (args : JValue) (cfg : JSRConfig) (env : FetchEnv) :
    Except String (List ContentPart) × List HttpRequest :=
  match jsrToolTable.find? (fun e => e.name == name) with
  | some e => e.run args cfg env
  | none => (.error ("Unknown JSR tool: " ++ name), [])

/-- handleJSRTool: the switch runs inside a single try/catch; a caught
failure message m becomes the error envelope with the single text part
"Error: " ++ m and isError true; a normal return is the success envelope. -/
def handleJSRTool (name : String) (args : JValue) (cfg : JSRConfig) (env : FetchEnv) :
    MCPToolResult × List HttpRequest :=
  match dispatchJSRTool name args cfg env with
  | (.ok parts, t) => ({ content := parts }, t)
  | (.error m, t) =>
      ({ content := [ContentPart.text ("Error: " ++ m)], isError := some true }, t)

/-- The schema check a given tool name performs on its raw arguments
(the Schema.parse of its case; trivially succeeds for names with no case or
no parse call). -/
def validateJSRTool (name : String) (args : JValue) : Except String Unit :=
  match jsrToolTable.find? (fun e => e.name == name) with
  | some e => e.validate args
  | none => .ok ()

/-- The keys the named tool's input schema declares. -/
def jsrToolKeys (name : String) : List String :=
  match jsrToolTable.find? (fun e => e.name == name) with
  | some e => e.keys
  | none => []

end ServerPkg

/-! Section: Example configuration and environment used to instantiate theorems -/

/-- A concrete configuration (the default endpoints, no token). -/
def exampleConfig : JSRConfig :=
  createJSRConfig "https://api.jsr.io" "https://jsr.io" none

/-- A concrete environment: the network is unreachable and every file read
fails. -/
def exampleEnv : FetchEnv :=
  { fetch := fun _ => .networkError "network unreachable"
    readFile := fun _ => .error "No such file or directory (os error 2)" }

namespace ServerPkg

/-! Section: Helper lemmas about the dispatcher structure -/

theorem toUnit_error {α : Type} {p : JValue → Except String α} {v : JValue} {m : String}
    (h : toUnit p v = .error m) : p v = .error m := by
  unfold toUnit at h
  cases hp : p v with
  | ok a => rw [hp] at h; simp [Except.map] at h
  | error e => rw [hp] at h; simp [Except.map] at h; rw [h]

theorem mkToolHandler_error {α : Type} {p : JValue → Except String α}
    {run : α → JSRConfig → FetchEnv → Except String (List ContentPart) × List HttpRequest}
    {args : JValue} {m : String} (cfg : JSRConfig) (env : FetchEnv)
    (h : p args = .error m) :
    mkToolHandler p run args cfg env = (.error m, []) := by
  unfold mkToolHandler
  rw [h]

theorem mkToolHandler_congr {α : Type} {p : JValue → Except String α}
    {run : α → JSRConfig → FetchEnv → Except String (List ContentPart) × List HttpRequest}
    {a b : JValue} (cfg : JSRConfig) (env : FetchEnv) (h : p a = p b) :
    mkToolHandler p run a cfg env = mkToolHandler p run b cfg env := by
  unfold mkToolHandler
  rw [h]

theorem handle_of_dispatch_error {name : String} {args : JValue} {cfg : JSRConfig}
    {env : FetchEnv} {m : String} {t : List HttpRequest}
    (hd : dispatchJSRTool name args cfg env = (.error m, t)) :
    handleJSRTool name args cfg env =
      ({ content := [ContentPart.text ("Error: " ++ m)], isError := some true }, t) := by
  unfold handleJSRTool
  rw [hd]

theorem handle_of_dispatch_ok {name : String} {args : JValue} {cfg : JSRConfig}
    {env : FetchEnv} {parts : List ContentPart} {t : List HttpRequest}
    (hd : dispatchJSRTool name args cfg env = (.ok parts, t)) :
    handleJSRTool name args cfg env = ({ content := parts, isError := none }, t) := by
  unfold handleJSRTool
  rw [hd]

/-- C1: For every invocation of the dispatcher handleJSRTool(name, args,
config), the call returns a Result Envelope and never lets a failure escape
as an uncaught exception: any failure raised during processing (unknown tool
name, schema-validation failure, local file-read failure, or
remote-operation failure) is caught at the dispatcher boundary and rendered
as an envelope with isError = true whose single text content part carries
the failure's message.  Formally: handleJSRTool is total; whenever the
switch body raises message m, the result is the envelope with the single
part "Error: " ++ m and isError true; whenever it returns content, the
envelope has that content with no error flag; and an unregistered name
yields the envelope for the default case's failure. -/
theorem handleJSRTool_envelope_boundary :
    ∀ (name : String) (args : JValue) (cfg : JSRConfig) (env : FetchEnv),
      (∀ m t, dispatchJSRTool name args cfg env = (.error m, t) →
        handleJSRTool name args cfg env =
          ({ content := [ContentPart.text ("Error: " ++ m)], isError := some true }, t)) ∧
      (∀ parts t, dispatchJSRTool name args cfg env = (.ok parts, t) →
        handleJSRTool name args cfg env = ({ content := parts, isError := none }, t)) ∧
      (name ∉ jsrToolNames →
        handleJSRTool name args cfg env =
          ({ content := [ContentPart.text ("Error: " ++ ("Unknown JSR tool: " ++ name))],
             isError := some true }, [])) := by
  intro name args cfg env
  refine ⟨fun m t hd => handle_of_dispatch_error hd,
          fun parts t hd => handle_of_dispatch_ok hd, fun hn => ?_⟩
  have hf : jsrToolTable.find? (fun e => e.name == name) = none := by
    rw [List.find?_eq_none]
    intro e he hbeq
    have heq : e.name = name := by simpa using hbeq
    exact hn (heq ▸ List.mem_map_of_mem (fun e => e.name) he)
  apply handle_of_dispatch_error
  unfold dispatchJSRTool
  rw [hf]

end ServerPkg

/-- C1 witness: an unknown tool name at a concrete invocation yields the
error envelope without escaping. -/
theorem handleJSRTool_envelope_boundary_witness :
    ("jsr_bogus" ∉ ServerPkg.jsrToolNames) ∧
    ServerPkg.handleJSRTool "jsr_bogus" (JValue.obj []) exampleConfig exampleEnv =
      ({ content := [ServerPkg.ContentPart.text "Error: Unknown JSR tool: jsr_bogus"],
         isError := some true }, []) := by
  have hnot : "jsr_bogus" ∉ ServerPkg.jsrToolNames := by decide
  exact ⟨hnot,
    (ServerPkg.handleJSRTool_envelope_boundary "jsr_bogus" (JValue.obj [])
      exampleConfig exampleEnv).2.2 hnot⟩

namespace ServerPkg

/-- Every case of the switch checks its schema before doing anything else:
if the case's schema check fails with message m, the case body short-circuits
with m and an empty request list. -/
theorem toolEntry_validate_error :
    ∀ e ∈ jsrToolTable, ∀ (args : JValue) (m : String) (cfg : JSRConfig) (env : FetchEnv),
      e.validate args = .error m → e.run args cfg env = (.error m, []) := by
  intro e he args m cfg env hv
  fin_cases he <;>
    first
      | (simp only [searchPackagesTool, getPackageTool, getPackageVersionTool,
          listPackageVersionsTool, getScopeTool, listScopePackagesTool,
          getPackageMetadataTool, listPackagesTool, getPackageDependentsTool,
          getPackageScoreTool, getPackageDependenciesTool, getCurrentUserScopeMemberTool,
          getUserTool, getUserScopesTool, listScopeMembersTool, listScopeInvitesTool,
          getPublishingTaskTool, createScopeTool, updateScopeTool, deleteScopeTool,
          addScopeMemberTool, updateScopeMemberTool, removeScopeMemberTool,
          deleteScopeInviteTool, createPackageTool, updatePackageTool, deletePackageTool,
          createPackageVersionTool, updatePackageVersionTool, acceptScopeInviteTool,
          declineScopeInviteTool, createAuthorizationTool, getAuthorizationDetailsTool,
          approveAuthorizationTool, denyAuthorizationTool, exchangeAuthorizationTool,
          mkToolHandler];
         rw [toUnit_error hv])
      | exact nomatch hv

/-- C2: For every operation and every raw argument object that violates the
operation's input shape (for example limit = 101 against the 1-100 bound of
the list-packages schema, or a scope name containing an uppercase letter
against the scope-name pattern), invoking the operation returns an envelope
with isError = true and no outbound HTTP request is made; invalid arguments
are never forwarded to a Remote Operation. -/
theorem invalid_args_error_no_http :
    ∀ (name : String) (args : JValue) (cfg : JSRConfig) (env : FetchEnv) (m : String),
      validateJSRTool name args = .error m →
      handleJSRTool name args cfg env =
        ({ content := [ContentPart.text ("Error: " ++ m)], isError := some true }, []) := by
  intro name args cfg env m hv
  unfold validateJSRTool at hv
  cases hfind : jsrToolTable.find? (fun e => e.name == name) with
  | none => rw [hfind] at hv; exact absurd hv (by simp)
  | some e =>
      rw [hfind] at hv
      have hrun := toolEntry_validate_error e (List.mem_of_find?_eq_some hfind)
        args m cfg env hv
      apply handle_of_dispatch_error
      unfold dispatchJSRTool
      rw [hfind]
      exact hrun

end ServerPkg

namespace ServerPkg

/-! Section: Unknown keys are stripped by every schema (Zod object semantics) -/

theorem lookupField_cons_ne {k key : String} {v : JValue} {fs : List (String × JValue)}
    (h : ¬ k = key) : lookupField ((k, v) :: fs) key = lookupField fs key := by
  simp [lookupField, h]

theorem parseSearchPackages_extra {k : String} {v : JValue} {fs : List (String × JValue)}
    (hk : k ∉ (["limit", "skip", "query"] : List String)) :
    parseSearchPackages (JValue.obj ((k, v) :: fs)) = parseSearchPackages (JValue.obj fs) := by
  simp at hk
  obtain ⟨h1, h2, h3⟩ := hk
  simp [parseSearchPackages, optField, lookupField_cons_ne, h1, h2, h3]

theorem parseGetPackage_extra {k : String} {v : JValue} {fs : List (String × JValue)}
    (hk : k ∉ (["scope", "name"] : List String)) :
    parseGetPackage (JValue.obj ((k, v) :: fs)) = parseGetPackage (JValue.obj fs) := by
  simp at hk
  obtain ⟨h1, h2⟩ := hk
  simp [parseGetPackage, reqField, lookupField_cons_ne, h1, h2]

theorem parseGetPackageVersion_extra {k : String} {v : JValue} {fs : List (String × JValue)}
    (hk : k ∉ (["scope", "name", "version"] : List String)) :
    parseGetPackageVersion (JValue.obj ((k, v) :: fs)) =
      parseGetPackageVersion (JValue.obj fs) := by
  simp at hk
  obtain ⟨h1, h2, h3⟩ := hk
  simp [parseGetPackageVersion, reqField, lookupField_cons_ne, h1, h2, h3]

theorem parseListPackageVersions_extra {k : String} {v : JValue} {fs : List (String × JValue)}
    (hk : k ∉ (["scope", "name", "limit", "page"] : List String)) :
    parseListPackageVersions (JValue.obj ((k, v) :: fs)) =
      parseListPackageVersions (JValue.obj fs) := by
  simp at hk
  obtain ⟨h1, h2, h3, h4⟩ := hk
  simp [parseListPackageVersions, reqField, optField, lookupField_cons_ne, h1, h2, h3, h4]

theorem parseGetScope_extra {k : String} {v : JValue} {fs : List (String × JValue)}
    (hk : k ∉ (["scope"] : List String)) :
    parseGetScope (JValue.obj ((k, v) :: fs)) = parseGetScope (JValue.obj fs) := by
  simp at hk
  simp [parseGetScope, reqField, lookupField_cons_ne, hk]

theorem parseListScopePackages_extra {k : String} {v : JValue} {fs : List (String × JValue)}
    (hk : k ∉ (["scope", "limit", "skip"] : List String)) :
    parseListScopePackages (JValue.obj ((k, v) :: fs)) =
      parseListScopePackages (JValue.obj fs) := by
  simp at hk
  obtain ⟨h1, h2, h3⟩ := hk
  simp [parseListScopePackages, reqField, optField, lookupField_cons_ne, h1, h2, h3]

theorem parseListPackages_extra {k : String} {v : JValue} {fs : List (String × JValue)}
    (hk : k ∉ (["limit", "page", "query"] : List String)) :
    parseListPackages (JValue.obj ((k, v) :: fs)) = parseListPackages (JValue.obj fs) := by
  simp at hk
  obtain ⟨h1, h2, h3⟩ := hk
  simp [parseListPackages, optField, lookupField_cons_ne, h1, h2, h3]

theorem parseGetPackageDependents_extra {k : String} {v : JValue}
    {fs : List (String × JValue)}
    (hk : k ∉ (["scope", "name", "limit", "page", "versionsPerPackageLimit"] : List String)) :
    parseGetPackageDependents (JValue.obj ((k, v) :: fs)) =
      parseGetPackageDependents (JValue.obj fs) := by
  simp at hk
  obtain ⟨h1, h2, h3, h4, h5⟩ := hk
  simp [parseGetPackageDependents, reqField, optField, lookupField_cons_ne, h1, h2, h3, h4, h5]

theorem parseGetUser_extra {k : String} {v : JValue} {fs : List (String × JValue)}
    (hk : k ∉ (["id"] : List String)) :
    parseGetUser (JValue.obj ((k, v) :: fs)) = parseGetUser (JValue.obj fs) := by
  simp at hk
  simp [parseGetUser, reqField, lookupField_cons_ne, hk]

theorem parseGetPublishingTask_extra {k : String} {v : JValue} {fs : List (String × JValue)}
    (hk : k ∉ (["id"] : List String)) :
    parseGetPublishingTask (JValue.obj ((k, v) :: fs)) =
      parseGetPublishingTask (JValue.obj fs) := by
  simp at hk
  simp [parseGetPublishingTask, reqField, lookupField_cons_ne, hk]

theorem parseCreateScope_extra {k : String} {v : JValue} {fs : List (String × JValue)}
    (hk : k ∉ (["scope", "description"] : List String)) :
    parseCreateScope (JValue.obj ((k, v) :: fs)) = parseCreateScope (JValue.obj fs) := by
  simp at hk
  obtain ⟨h1, h2⟩ := hk
  simp [parseCreateScope, reqField, optField, lookupField_cons_ne, h1, h2]

theorem parseUpdateScope_extra {k : String} {v : JValue} {fs : List (String × JValue)}
    (hk : k ∉ (["scope", "ghActionsVerifyActor", "requirePublishingFromCI"] : List String)) :
    parseUpdateScope (JValue.obj ((k, v) :: fs)) = parseUpdateScope (JValue.obj fs) := by
  simp at hk
  obtain ⟨h1, h2, h3⟩ := hk
  simp [parseUpdateScope, reqField, optField, lookupField_cons_ne, h1, h2, h3]

theorem parseAddScopeMember_extra {k : String} {v : JValue} {fs : List (String × JValue)}
    (hk : k ∉ (["scope", "githubLogin"] : List String)) :
    parseAddScopeMember (JValue.obj ((k, v) :: fs)) = parseAddScopeMember (JValue.obj fs) := by
  simp at hk
  obtain ⟨h1, h2⟩ := hk
  simp [parseAddScopeMember, reqField, lookupField_cons_ne, h1, h2]

theorem parseUpdateScopeMember_extra {k : String} {v : JValue} {fs : List (String × JValue)}
    (hk : k ∉ (["scope", "userId", "isAdmin"] : List String)) :
    parseUpdateScopeMember (JValue.obj ((k, v) :: fs)) =
      parseUpdateScopeMember (JValue.obj fs) := by
  simp at hk
  obtain ⟨h1, h2, h3⟩ := hk
  simp [parseUpdateScopeMember, reqField, lookupField_cons_ne, h1, h2, h3]

theorem parseRemoveScopeMember_extra {k : String} {v : JValue} {fs : List (String × JValue)}
    (hk : k ∉ (["scope", "userId"] : List String)) :
    parseRemoveScopeMember (JValue.obj ((k, v) :: fs)) =
      parseRemoveScopeMember (JValue.obj fs) := by
  simp at hk
  obtain ⟨h1, h2⟩ := hk
  simp [parseRemoveScopeMember, reqField, lookupField_cons_ne, h1, h2]

theorem parseDeleteScopeInvite_extra {k : String} {v : JValue} {fs : List (String × JValue)}
    (hk : k ∉ (["scope", "userId"] : List String)) :
    parseDeleteScopeInvite (JValue.obj ((k, v) :: fs)) =
      parseDeleteScopeInvite (JValue.obj fs) := by
  simp at hk
  obtain ⟨h1, h2⟩ := hk
  simp [parseDeleteScopeInvite, reqField, lookupField_cons_ne, h1, h2]

theorem parseCreatePackage_extra {k : String} {v : JValue} {fs : List (String × JValue)}
    (hk : k ∉ (["scope", "package"] : List String)) :
    parseCreatePackage (JValue.obj ((k, v) :: fs)) = parseCreatePackage (JValue.obj fs) := by
  simp at hk
  obtain ⟨h1, h2⟩ := hk
  simp [parseCreatePackage, reqField, lookupField_cons_ne, h1, h2]

theorem parseUpdatePackage_extra {k : String} {v : JValue} {fs : List (String × JValue)}
    (hk : k ∉ (["scope", "name", "description", "githubRepository", "runtimeCompat",
      "isArchived"] : List String)) :
    parseUpdatePackage (JValue.obj ((k, v) :: fs)) = parseUpdatePackage (JValue.obj fs) := by
  simp at hk
  obtain ⟨h1, h2, h3, h4, h5, h6⟩ := hk
  simp [parseUpdatePackage, reqField, optField, nullableOptField, lookupField_cons_ne,
    h1, h2, h3, h4, h5, h6]

theorem parseCreatePackageVersion_extra {k : String} {v : JValue}
    {fs : List (String × JValue)}
    (hk : k ∉ (["scope", "name", "version", "configPath", "tarballPath"] : List String)) :
    parseCreatePackageVersion (JValue.obj ((k, v) :: fs)) =
      parseCreatePackageVersion (JValue.obj fs) := by
  simp at hk
  obtain ⟨h1, h2, h3, h4, h5⟩ := hk
  simp [parseCreatePackageVersion, reqField, lookupField_cons_ne, h1, h2, h3, h4, h5]

theorem parseUpdatePackageVersion_extra {k : String} {v : JValue}
    {fs : List (String × JValue)}
    (hk : k ∉ (["scope", "name", "version", "yanked"] : List String)) :
    parseUpdatePackageVersion (JValue.obj ((k, v) :: fs)) =
      parseUpdatePackageVersion (JValue.obj fs) := by
  simp at hk
  obtain ⟨h1, h2, h3, h4⟩ := hk
  simp [parseUpdatePackageVersion, reqField, lookupField_cons_ne, h1, h2, h3, h4]

theorem parseCreateAuthorization_extra {k : String} {v : JValue}
    {fs : List (String × JValue)}
    (hk : k ∉ (["challenge", "permissions"] : List String)) :
    parseCreateAuthorization (JValue.obj ((k, v) :: fs)) =
      parseCreateAuthorization (JValue.obj fs) := by
  simp at hk
  obtain ⟨h1, h2⟩ := hk
  simp [parseCreateAuthorization, reqField, optField, lookupField_cons_ne, h1, h2]

theorem parseAuthorizationCode_extra {k : String} {v : JValue} {fs : List (String × JValue)}
    (hk : k ∉ (["code"] : List String)) :
    parseAuthorizationCode (JValue.obj ((k, v) :: fs)) =
      parseAuthorizationCode (JValue.obj fs) := by
  simp at hk
  simp [parseAuthorizationCode, reqField, lookupField_cons_ne, hk]

theorem parseExchangeAuthorization_extra {k : String} {v : JValue}
    {fs : List (String × JValue)}
    (hk : k ∉ (["exchangeToken", "verifier"] : List String)) :
    parseExchangeAuthorization (JValue.obj ((k, v) :: fs)) =
      parseExchangeAuthorization (JValue.obj fs) := by
  simp at hk
  obtain ⟨h1, h2⟩ := hk
  simp [parseExchangeAuthorization, reqField, lookupField_cons_ne, h1, h2]

/-- Case bodies read the raw arguments only through their schema: an extra
binding whose key the case's schema does not declare leaves the case's
outcome unchanged. -/
theorem toolEntry_extra_key :
    ∀ e ∈ jsrToolTable, ∀ (fs : List (String × JValue)) (k : String) (v : JValue)
      (cfg : JSRConfig) (env : FetchEnv), k ∉ e.keys →
      e.run (.obj ((k, v) :: fs)) cfg env = e.run (.obj fs) cfg env := by
  intro e he fs k v cfg env hk
  fin_cases he <;>
    (simp only [searchPackagesTool, getPackageTool, getPackageVersionTool,
      listPackageVersionsTool, getScopeTool, listScopePackagesTool,
      getPackageMetadataTool, listPackagesTool, getPackageDependentsTool,
      getPackageScoreTool, getPackageDependenciesTool, getCurrentUserTool,
      getCurrentUserScopesTool, getCurrentUserScopeMemberTool, getCurrentUserInvitesTool,
      getUserTool, getUserScopesTool, listScopeMembersTool, listScopeInvitesTool,
      getPublishingTaskTool, getStatsTool, createScopeTool, updateScopeTool,
      deleteScopeTool, addScopeMemberTool, updateScopeMemberTool, removeScopeMemberTool,
      deleteScopeInviteTool, createPackageTool, updatePackageTool, deletePackageTool,
      createPackageVersionTool, updatePackageVersionTool, acceptScopeInviteTool,
      declineScopeInviteTool, createAuthorizationTool, getAuthorizationDetailsTool,
      approveAuthorizationTool, denyAuthorizationTool, exchangeAuthorizationTool,
      mkToolHandler] <;>
     first
       | rw [parseSearchPackages_extra hk]
       | rw [parseGetPackage_extra hk]
       | rw [parseGetPackageVersion_extra hk]
       | rw [parseListPackageVersions_extra hk]
       | rw [parseGetScope_extra hk]
       | rw [parseListScopePackages_extra hk]
       | rw [parseListPackages_extra hk]
       | rw [parseGetPackageDependents_extra hk]
       | rw [parseGetUser_extra hk]
       | rw [parseGetPublishingTask_extra hk]
       | rw [parseCreateScope_extra hk]
       | rw [parseUpdateScope_extra hk]
       | rw [parseAddScopeMember_extra hk]
       | rw [parseUpdateScopeMember_extra hk]
       | rw [parseRemoveScopeMember_extra hk]
       | rw [parseDeleteScopeInvite_extra hk]
       | rw [parseCreatePackage_extra hk]
       | rw [parseUpdatePackage_extra hk]
       | rw [parseCreatePackageVersion_extra hk]
       | rw [parseUpdatePackageVersion_extra hk]
       | rw [parseCreateAuthorization_extra hk]
       | rw [parseAuthorizationCode_extra hk]
       | rw [parseExchangeAuthorization_extra hk])

/-- C10: For every operation, a raw argument object containing extra keys
not declared in the operation's input schema is accepted rather than
rejected: validation silently strips the unknown keys, and only the declared
fields are forwarded to the Remote Operation.  Formally: adding a binding
for a key the tool's schema does not declare leaves the whole invocation's
result (envelope and issued requests) unchanged. -/
theorem extra_keys_stripped :
    ∀ (name : String) (fs : List (String × JValue)) (k : String) (v : JValue)
      (cfg : JSRConfig) (env : FetchEnv), k ∉ jsrToolKeys name →
      handleJSRTool name (.obj ((k, v) :: fs)) cfg env =
        handleJSRTool name (.obj fs) cfg env := by
  intro name fs k v cfg env hk
  unfold jsrToolKeys at hk
  cases hfind : jsrToolTable.find? (fun e => e.name == name) with
  | none =>
      unfold handleJSRTool dispatchJSRTool
      rw [hfind]
  | some e =>
      have hk2 : k ∉ e.keys := by rw [hfind] at hk; exact hk
      have hd : dispatchJSRTool name (JValue.obj ((k, v) :: fs)) cfg env =
          dispatchJSRTool name (JValue.obj fs) cfg env := by
        unfold dispatchJSRTool
        rw [hfind]
        exact toolEntry_extra_key e (List.mem_of_find?_eq_some hfind) fs k v cfg env hk2
      unfold handleJSRTool
      rw [hd]

end ServerPkg

/-- C10 witness: an undeclared key on a get-package invocation changes
nothing about the outcome. -/
theorem extra_keys_stripped_witness :
    ("installHint" ∉ ServerPkg.jsrToolKeys "jsr_get_package") ∧
    ServerPkg.handleJSRTool "jsr_get_package"
        (JValue.obj [("installHint", JValue.num 1), ("scope", JValue.str "std"),
          ("name", JValue.str "assert")]) exampleConfig exampleEnv =
      ServerPkg.handleJSRTool "jsr_get_package"
        (JValue.obj [("scope", JValue.str "std"), ("name", JValue.str "assert")])
        exampleConfig exampleEnv := by
  have hk : "installHint" ∉ ServerPkg.jsrToolKeys "jsr_get_package" := by decide
  exact ⟨hk, ServerPkg.extra_keys_stripped "jsr_get_package"
    [("scope", JValue.str "std"), ("name", JValue.str "assert")]
    "installHint" (JValue.num 1) exampleConfig exampleEnv hk⟩

/-- C3 counterexample: the dispatcher's search case with skip = 40 and no
limit performs no conversion at all (it passes no page number), instead of
applying page = floor(skip / 20) + 1 = 3 with the default limit of 20 as the
claim states. -/
theorem searchPage_no_default_counterexample :
    dispatchSearchPage (some 40) none ≠ some (Int.fdiv 40 20 + 1) := by decide

/-- C3 amended: listScopePackages converts a supplied skip via
page = floor(skip / limit) + 1 with a default limit of 20 when limit is
omitted or zero, for every non-negative skip.  The dispatcher's search case
applies page = floor(skip / limit) + 1 only when skip and limit are both
supplied; with limit omitted it passes no page at all (no default of 20).
The library server's search handler applies the default-20 formula only
when skip is supplied and nonzero; a zero skip passes no page. -/
theorem skip_page_conversion_amended :
    ∀ (s l : Int), 0 ≤ s → 0 < l →
      listScopePackagesPage (some s) (some l) = Int.fdiv s l + 1 ∧
      listScopePackagesPage (some s) none = Int.fdiv s 20 + 1 ∧
      listScopePackagesPage none (some l) = 1 ∧
      dispatchSearchPage (some s) (some l) = some (Int.fdiv s l + 1) ∧
      dispatchSearchPage (some s) none = none ∧
      libSearchPage (some s) (some l) =
        (if s = 0 then none else some (Int.fdiv s l + 1)) ∧
      libSearchPage (some 0) (some l) = none := by
  intro s l _hs hl
  have hne : l ≠ 0 := by omega
  refine ⟨?_, rfl, rfl, rfl, rfl, ?_, by simp [libSearchPage]⟩
  · simp [listScopePackagesPage, jsOrNum, hne]
  · simp [libSearchPage, jsOrNum, hne]

/-- C3 witness: skip = 40 with limit = 20 lands on page 3 in
listScopePackages, while the dispatcher's search case drops the conversion
when limit is omitted. -/
theorem skip_page_conversion_amended_witness :
    listScopePackagesPage (some 40) (some 20) = 3 ∧
    dispatchSearchPage (some 40) none = none := by
  have h := skip_page_conversion_amended 40 20 (by norm_num) (by norm_num)
  exact ⟨h.1.trans (by decide), h.2.2.2.2.1⟩

/-- C4 counterexample: listPackageVersions with page = -1 (the schema puts
no lower bound on page) repackages a negative skip, refuting "skip is
non-negative" for every combination of limit/page/skip arguments. -/
theorem paginated_skip_negative_counterexample :
    (packageVersionsRepack [] none (some (-1))).skip < 0 := by decide

/-- C4 amended: for every decoded server response the repackaged value of
each paginated list operation satisfies: returned equals the length of the
data array, total is the server's total verbatim when the response provides
one (listScopePackages, getPackageDependents) and the returned count
otherwise (listPackageVersions), and skip is non-negative provided the
supplied limit is non-negative, the supplied page is zero or at least 1,
and the supplied skip argument is non-negative. -/
theorem paginated_shape_amended :
    ∀ (resp items : List JValue) (total : JValue) (limit page skip : Option Int),
      (∀ l, limit = some l → 0 ≤ l) →
      (∀ p, page = some p → p = 0 ∨ 1 ≤ p) →
      (∀ s, skip = some s → 0 ≤ s) →
      ((packageVersionsRepack resp limit page).returned =
          ((packageVersionsRepack resp limit page).data.length : Int) ∧
        (packageVersionsRepack resp limit page).total =
          some (.num (packageVersionsRepack resp limit page).returned) ∧
        0 ≤ (packageVersionsRepack resp limit page).skip) ∧
      ((scopePackagesRepack items (some total) limit skip).returned =
          ((scopePackagesRepack items (some total) limit skip).data.length : Int) ∧
        (scopePackagesRepack items (some total) limit skip).total = some total ∧
        0 ≤ (scopePackagesRepack items (some total) limit skip).skip) ∧
      ((dependentsRepack items (some total) limit page).returned =
          ((dependentsRepack items (some total) limit page).data.length : Int) ∧
        (dependentsRepack items (some total) limit page).total = some total ∧
        0 ≤ (dependentsRepack items (some total) limit page).skip) := by
  intro resp items total limit page skip hL hP hS
  have hjs : 0 ≤ jsOrNum limit 20 := by
    cases limit with
    | none => simp [jsOrNum]
    | some l =>
        have hl0 := hL l rfl
        rcases eq_or_ne l 0 with h | h
        · subst h
          decide
        · simp only [jsOrNum, if_neg h]
          omega
  have hpts : 0 ≤ pageToSkip limit page := by
    cases page with
    | none => simp [pageToSkip]
    | some p =>
        rcases hP p rfl with h0 | h1
        · simp [pageToSkip, h0]
        · have hne : ¬ p = 0 := by omega
          simp only [pageToSkip, if_neg hne]
          exact mul_nonneg (by omega) hjs
  have hsk : 0 ≤ jsOrNum skip 0 := by
    cases skip with
    | none => simp [jsOrNum]
    | some s =>
        have hs0 := hS s rfl
        rcases eq_or_ne s 0 with h | h
        · subst h
          decide
        · simp only [jsOrNum, if_neg h]
          omega
  exact ⟨⟨rfl, rfl, hpts⟩, ⟨rfl, rfl, hsk⟩, ⟨rfl, rfl, hpts⟩⟩

/-- C4 witness: a concrete well-formed combination (limit 10, page 2,
skip 7, server total 5) satisfies all three repackaging invariants. -/
theorem paginated_shape_amended_witness :
    0 ≤ (dependentsRepack [JValue.null] (some (JValue.num 5)) (some 10) (some 2)).skip ∧
    (scopePackagesRepack [JValue.null] (some (JValue.num 5)) (some 10) (some 7)).total =
      some (JValue.num 5) ∧
    0 ≤ (packageVersionsRepack [] (some 10) (some 2)).skip := by
  have h := paginated_shape_amended [] [JValue.null] (JValue.num 5) (some 10) (some 2)
    (some 7)
    (fun l hl => by injection hl with h2; omega)
    (fun p hp => by injection hp with h2; right; omega)
    (fun s hs => by injection hs with h2; omega)
  exact ⟨h.2.2.2.2, h.2.1.2.1, h.1.2.2⟩

theorem endsWithSlash_mk_reverse (l : List Char) :
    endsWithSlash (String.mk l.reverse) =
      (match l with | c :: _ => c == '/' | [] => false) := by
  unfold endsWithSlash
  rw [show (String.mk l.reverse).data = l.reverse from rfl, List.reverse_reverse]

/-- replace(/\/$/, "") leaves a non-empty slash-free string whenever the
input is non-empty, is not exactly "/", and does not end in two slashes. -/
theorem stripTrailingSlash_ok (s : String) (h1 : s ≠ "") (h2 : s ≠ "/")
    (h3 : endsWithDoubleSlash s = false) :
    stripTrailingSlash s ≠ "" ∧ endsWithSlash (stripTrailingSlash s) = false := by
  unfold stripTrailingSlash
  unfold endsWithDoubleSlash at h3
  rcases hrev : s.data.reverse with _ | ⟨c, rest⟩
  · exfalso
    apply h1
    have hsd : s.data = [] := by simpa using congrArg List.reverse hrev
    exact String.ext (hsd.trans rfl)
  · rw [hrev] at h3
    show (if c = '/' then String.mk rest.reverse else s) ≠ "" ∧
      endsWithSlash (if c = '/' then String.mk rest.reverse else s) = false
    by_cases hc : c = '/'
    · subst hc
      rw [if_pos rfl]
      rcases rest with _ | ⟨d, rest2⟩
      · exfalso
        apply h2
        have hsd : s.data = ['/'] := by simpa using congrArg List.reverse hrev
        exact String.ext (hsd.trans rfl)
      · have hd : (d == '/') = false := h3
        constructor
        · intro hemp
          have hdata : (d :: rest2).reverse = ([] : List Char) := congrArg String.data hemp
          simp at hdata
        · rw [endsWithSlash_mk_reverse (d :: rest2)]
          exact hd
    · rw [if_neg hc]
      refine ⟨h1, ?_⟩
      unfold endsWithSlash
      rw [hrev]
      exact beq_eq_false_iff_ne.mpr hc

/-- C5 counterexample: the construction removes only ONE trailing slash, so
the input pair ("https://api.jsr.io//", "https://jsr.io/") yields an apiUrl
that still ends with a slash, refuting the claim for every pair of input
URL strings. -/
theorem createJSRConfig_double_slash_counterexample :
    endsWithSlash (createJSRConfig "https://api.jsr.io//" "https://jsr.io/"
      (some "tok")).apiUrl = true := by decide

/-- C5 amended: createJSRConfig removes exactly one trailing slash from each
URL and stores the token verbatim; consequently both stored URLs are
non-empty with no trailing slash whenever each input URL is non-empty, is
not just "/", and does not end in two consecutive slashes - in particular
the example input ("https://api.jsr.io/", "https://jsr.io/", "tok") yields
("https://api.jsr.io", "https://jsr.io", "tok"). -/
theorem createJSRConfig_normalization_amended :
    ∀ (a r : String) (t : Option String),
      (createJSRConfig a r t).apiUrl = stripTrailingSlash a ∧
      (createJSRConfig a r t).registryUrl = stripTrailingSlash r ∧
      (createJSRConfig a r t).apiToken = t ∧
      (a ≠ "" → a ≠ "/" → endsWithDoubleSlash a = false →
        (createJSRConfig a r t).apiUrl ≠ "" ∧
        endsWithSlash (createJSRConfig a r t).apiUrl = false) ∧
      (r ≠ "" → r ≠ "/" → endsWithDoubleSlash r = false →
        (createJSRConfig a r t).registryUrl ≠ "" ∧
        endsWithSlash (createJSRConfig a r t).registryUrl = false) := by
  intro a r t
  exact ⟨rfl, rfl, rfl,
    fun h1 h2 h3 => stripTrailingSlash_ok a h1 h2 h3,
    fun h1 h2 h3 => stripTrailingSlash_ok r h1 h2 h3⟩

/-- C5 witness: the example triple normalizes as stated. -/
theorem createJSRConfig_normalization_amended_witness :
    (createJSRConfig "https://api.jsr.io/" "https://jsr.io/" (some "tok")).apiUrl =
      "https://api.jsr.io" ∧
    (createJSRConfig "https://api.jsr.io/" "https://jsr.io/" (some "tok")).registryUrl =
      "https://jsr.io" ∧
    (createJSRConfig "https://api.jsr.io/" "https://jsr.io/" (some "tok")).apiToken =
      some "tok" ∧
    endsWithSlash (createJSRConfig "https://api.jsr.io/" "https://jsr.io/"
      (some "tok")).apiUrl = false := by
  have h := createJSRConfig_normalization_amended "https://api.jsr.io/" "https://jsr.io/"
    (some "tok")
  refine ⟨by decide, by decide, h.2.2.1,
    (h.2.2.2.1 (by decide) (by decide) (by decide)).2⟩

/-- C6 counterexample: the server-embedded management request builder has
no 204 special case: on a 204 No Content response (empty, undecodable body)
it attempts response.json() and fails with a decode error instead of
yielding an empty result without a decode attempt. -/
theorem embedded_204_decode_counterexample :
    ServerPkg.apiRespToResult
        { status := 204, statusText := "No Content", bodyText := "", bodyJson := none } =
      .error jsonDecodeErrorMsg := rfl

/-- C6 amended: the library management request builder yields an
empty/undefined result on every 204 response with no decode attempt (its
result does not depend on the body at all), and decodes the body as JSON on
every other 2xx response; the server-embedded builder instead attempts a
JSON decode on every 2xx response including 204. -/
theorem library_204_no_decode_amended :
    ∀ (resp : HttpResponse),
      (resp.status = 204 → LibPkg.apiRespToResult resp = .ok none) ∧
      (200 ≤ resp.status → resp.status ≤ 299 → resp.status ≠ 204 →
        LibPkg.apiRespToResult resp =
          (match resp.bodyJson with
           | some v => .ok (some v)
           | none => .error jsonDecodeErrorMsg)) ∧
      (200 ≤ resp.status → resp.status ≤ 299 →
        ServerPkg.apiRespToResult resp =
          (match resp.bodyJson with
           | some v => .ok v
           | none => .error jsonDecodeErrorMsg)) := by
  intro resp
  refine ⟨fun h204 => ?_, fun hlo hhi hne => ?_, fun hlo hhi => ?_⟩
  · have hok : respOk resp = true := by
      unfold respOk
      rw [h204]
      decide
    unfold LibPkg.apiRespToResult
    rw [if_pos hok, if_pos h204]
  · have hok : respOk resp = true := by
      unfold respOk
      simp only [Bool.and_eq_true, decide_eq_true_eq]
      exact ⟨hlo, hhi⟩
    unfold LibPkg.apiRespToResult
    rw [if_pos hok, if_neg hne]
  · have hok : respOk resp = true := by
      unfold respOk
      simp only [Bool.and_eq_true, decide_eq_true_eq]
      exact ⟨hlo, hhi⟩
    unfold ServerPkg.apiRespToResult
    rw [if_pos hok]

/-- C6 witness: on a 204 response carrying a decodable junk body the library
builder still yields the empty result, showing no decode happens. -/
theorem library_204_no_decode_amended_witness :
    LibPkg.apiRespToResult
        { status := 204, statusText := "No Content", bodyText := "junk",
          bodyJson := some (JValue.str "junk") } = .ok none :=
  (library_204_no_decode_amended
    { status := 204, statusText := "No Content", bodyText := "junk",
      bodyJson := some (JValue.str "junk") }).1 rfl

/-- C8 counterexample: on a 204 response the two management request builders
disagree: the library builder succeeds with the empty result while the
server-embedded builder fails, so the two implementations are not
observably equivalent. -/
theorem builders_204_divergence :
    LibPkg.apiOutcomeToResult (.response
        { status := 204, statusText := "No Content", bodyText := "", bodyJson := none }) =
      .ok none ∧
    (ServerPkg.apiOutcomeToResult (.response
        { status := 204, statusText := "No Content", bodyText := "",
          bodyJson := none })).isOk = false :=
  ⟨rfl, rfl⟩

/-- C8 amended: for every fetch outcome whose response status is not 204
(including every network error), the two management request builders produce
the same decoded result on success and the same failure message on failure
(the embedded builder's result embeds into the library's shape by
Option.some); they diverge exactly at 204. -/
theorem builders_observational_equiv_amended :
    ∀ (o : FetchOutcome),
      (∀ resp, o = .response resp → resp.status ≠ 204) →
      (ServerPkg.apiOutcomeToResult o).map some = LibPkg.apiOutcomeToResult o := by
  intro o h
  cases o with
  | networkError m => rfl
  | response resp =>
      have hne := h resp rfl
      have key : (ServerPkg.apiRespToResult resp).map some = LibPkg.apiRespToResult resp := by
        unfold ServerPkg.apiRespToResult LibPkg.apiRespToResult
        by_cases hok : respOk resp = true
        · rw [if_pos hok, if_pos hok, if_neg hne]
          cases resp.bodyJson <;> rfl
        · rw [if_neg hok, if_neg hok]
          rfl
      have comm : ∀ (x : Except String JValue),
          Except.map some (Except.mapError (fun m => "JSR API request failed: " ++ m) x) =
            Except.mapError (fun m => "JSR API request failed: " ++ m)
              (Except.map some x) := by
        intro x
        cases x <;> rfl
      show Except.map some (Except.mapError (fun m => "JSR API request failed: " ++ m)
          (ServerPkg.apiRespToResult resp)) =
        Except.mapError (fun m => "JSR API request failed: " ++ m)
          (LibPkg.apiRespToResult resp)
      rw [comm (ServerPkg.apiRespToResult resp), key]

/-- C8 witness: on a 404 with a body both builders fail with the same
message. -/
theorem builders_observational_equiv_amended_witness :
    (ServerPkg.apiOutcomeToResult (.response
        { status := 404, statusText := "Not Found", bodyText := "package not found",
          bodyJson := none })).map some =
      LibPkg.apiOutcomeToResult (.response
        { status := 404, statusText := "Not Found", bodyText := "package not found",
          bodyJson := none }) :=
  builders_observational_equiv_amended _ (fun resp h => by cases h; decide)

/-- Every binding of the merged header object came from the defaults or from
options.headers. -/
theorem mem_foldl_setHeader :
    ∀ (l base : List (String × String)) (p : String × String),
      p ∈ l.foldl setHeader base → p ∈ base ∨ p ∈ l := by
  intro l
  induction l with
  | nil => intro base p h; exact Or.inl h
  | cons q rest ih =>
      intro base p h
      rcases ih (setHeader base q) p h with hb | hr
      · unfold setHeader at hb
        rcases List.mem_append.mp hb with hf | hq
        · exact Or.inl (List.mem_of_mem_filter hf)
        · simp at hq
          exact Or.inr (by simp [hq])
      · exact Or.inr (List.mem_cons_of_mem q hr)

theorem lookupHeader_eq_none_iff {hs : List (String × String)} {key : String} :
    lookupHeader hs key = none ↔ ∀ p ∈ hs, p.1 ≠ key := by
  unfold lookupHeader
  simp [List.find?_eq_none]

/-- C9: If the connection configuration's apiToken is the empty string,
management requests carry no Authorization header at all (the presence
check is JavaScript truthiness, not definedness), so an empty-string token
behaves exactly like an absent token for every management operation: the
full request builder is extensionally equal under the two configurations,
and the built headers contain no Authorization binding whenever the caller
options do not themselves supply one. -/
theorem empty_token_like_absent_token :
    ∀ (au ru endpoint : String) (opts : RequestOptions) (env : FetchEnv),
      ServerPkg.makeApiRequest { apiUrl := au, registryUrl := ru, apiToken := some "" }
          endpoint opts env =
        ServerPkg.makeApiRequest { apiUrl := au, registryUrl := ru, apiToken := none }
          endpoint opts env ∧
      (lookupHeader opts.headers "Authorization" = none →
        lookupHeader (apiHeaders userAgentMcp
            { apiUrl := au, registryUrl := ru, apiToken := some "" } opts)
          "Authorization" = none) := by
  intro au ru endpoint opts env
  refine ⟨rfl, fun hno => ?_⟩
  have hbase : ∀ p ∈ opts.headers.foldl setHeader
      [("Content-Type", "application/json"), ("User-Agent", userAgentMcp)],
      p.1 ≠ "Authorization" := by
    intro p hp
    rcases mem_foldl_setHeader opts.headers _ p hp with hb | hh
    · simp only [List.mem_cons, List.not_mem_nil, or_false] at hb
      rcases hb with rfl | rfl <;> decide
    · exact (lookupHeader_eq_none_iff.mp hno) p hh
  exact lookupHeader_eq_none_iff.mpr hbase

/-- C9 witness: with an empty-string token the built request equals the
tokenless one, and the headers carry no Authorization. -/
theorem empty_token_like_absent_token_witness :
    ServerPkg.makeApiRequest
        { apiUrl := "https://api.jsr.io", registryUrl := "https://jsr.io",
          apiToken := some "" } "/user" {} exampleEnv =
      ServerPkg.makeApiRequest
        { apiUrl := "https://api.jsr.io", registryUrl := "https://jsr.io",
          apiToken := none } "/user" {} exampleEnv ∧
    lookupHeader (apiHeaders userAgentMcp
        { apiUrl := "https://api.jsr.io", registryUrl := "https://jsr.io",
          apiToken := some "" } {}) "Authorization" = none := by
  have h := empty_token_like_absent_token "https://api.jsr.io" "https://jsr.io" "/user"
    {} exampleEnv
  exact ⟨h.1, h.2 rfl⟩

/-- C7: For the create-package-version operation, when the validated
arguments contain a tarballPath naming a missing or unreadable file, the
invocation produces an error envelope with isError = true whose message
reflects the read failure, no outbound HTTP request is made, and the
failure is not a schema-validation failure: the hypothesis is that the
schema parse succeeded (it accepts any string path without checking
existence) and the file read then failed. -/
theorem create_package_version_read_failure :
    ∀ (args : JValue) (cfg : JSRConfig) (env : FetchEnv)
      (p : ServerPkg.CreatePackageVersionArgs) (m : String),
      ServerPkg.parseCreatePackageVersion args = .ok p →
      env.readFile p.tarballPath = .error m →
      ServerPkg.handleJSRTool "jsr_create_package_version" args cfg env =
        ({ content := [ServerPkg.ContentPart.text ("Error: " ++ m)],
           isError := some true }, []) := by
  intro args cfg env p m hp hr
  apply ServerPkg.handle_of_dispatch_error
  have hd : ServerPkg.dispatchJSRTool "jsr_create_package_version" args cfg env =
      ServerPkg.createPackageVersionTool args cfg env := rfl
  rw [hd]
  simp only [ServerPkg.createPackageVersionTool, ServerPkg.mkToolHandler, hp, hr]

/-- C7 witness: a nonexistent tarball path passes validation and fails at
the read, with no request issued. -/
theorem create_package_version_read_failure_witness :
    ServerPkg.handleJSRTool "jsr_create_package_version"
        (JValue.obj [("scope", JValue.str "std"), ("name", JValue.str "assert"),
          ("version", JValue.str "1.0.0"), ("configPath", JValue.str "deno.json"),
          ("tarballPath", JValue.str "/missing.tar.gz")]) exampleConfig exampleEnv =
      ({ content := [ServerPkg.ContentPart.text
           "Error: No such file or directory (os error 2)"], isError := some true }, []) :=
  create_package_version_read_failure
    (JValue.obj [("scope", JValue.str "std"), ("name", JValue.str "assert"),
      ("version", JValue.str "1.0.0"), ("configPath", JValue.str "deno.json"),
      ("tarballPath", JValue.str "/missing.tar.gz")]) exampleConfig exampleEnv
    ⟨"std", "assert", "1.0.0", "deno.json", "/missing.tar.gz"⟩
    "No such file or directory (os error 2)" rfl rfl

/-- C2 witness: limit = 101 against the 1-100 bound of the list-packages
schema is rejected with an error envelope and an empty request trace. -/
theorem invalid_args_error_no_http_witness :
    ServerPkg.validateJSRTool "jsr_list_packages" (JValue.obj [("limit", JValue.num 101)]) =
      .error "Number must be less than or equal to the maximum" ∧
    ServerPkg.handleJSRTool "jsr_list_packages" (JValue.obj [("limit", JValue.num 101)])
      exampleConfig exampleEnv =
      ({ content := [ServerPkg.ContentPart.text
           "Error: Number must be less than or equal to the maximum"],
         isError := some true }, []) :=
  ⟨rfl, ServerPkg.invalid_args_error_no_http "jsr_list_packages"
    (JValue.obj [("limit", JValue.num 101)]) exampleConfig exampleEnv
    "Number must be less than or equal to the maximum" rfl⟩

end JsrMcp
